import Mathlib

/-!
Verification development for the rovella platform layer
(`src/platform.rs`): the event data model, the native-code
translation tables, the window callback of the message-loop
backend, and the poll loop of the connection/poll backend are
embedded as executable Lean definitions, and the behavioural
properties of the layer are proved about them.
-/

set_option maxRecDepth 10000

/-- EventType is the closed enumeration of engine event kinds
(mirrors `EventType` used by `src/platform.rs`). -/
inductive EventType where
  | None
  | WinClose
  | WinShow
  | WinResize
  | KeyDown
  | KeyUp
  | MouseMove
  | MouseWheel
  | MouseLeftBtnDown
  | MouseMidBtnDown
  | MouseRightBtnDown
  | MouseLeftBtnUp
  | MouseMidBtnUp
  | MouseRightBtnUp
deriving DecidableEq, Repr

/-- EventData is the 2-byte payload of an event, stored as its raw
16-bit pattern (the Rust side is a union of `i16` and `u16` over the
same two bytes). -/
structure EventData where
  bits : Nat
deriving DecidableEq, Repr

/-- EventData.default is the zero payload (`EventData::default()`). -/
def EventData.default : EventData := ⟨0⟩

/-- EventData.ofUnsigned stores a native value through the
`unsigned` (u16) view: the value is truncated to 16 bits, as the
`as u16` casts in the source do. -/
def EventData.ofUnsigned (u : Nat) : EventData := ⟨u % 65536⟩

/-- EventData.ofSigned stores a signed value through the `signed`
(i16) view as its two's-complement 16-bit pattern. -/
def EventData.ofSigned (s : Int) : EventData := ⟨(s % 65536).toNat⟩

/-- EventData.toSigned reads the payload back through the signed
(i16) view. -/
def EventData.toSigned (d : EventData) : Int :=
  if d.bits % 65536 < 32768 then (d.bits % 65536 : Int)
  else (d.bits % 65536 : Int) - 65536

/-- Event is the normalized event record: a kind tag and two payload
slots (mirrors `Event { e_type, data0, data1 }`). -/
structure Event where
  e_type : EventType
  data0 : EventData
  data1 : EventData
deriving DecidableEq, Repr

/-- Key is the closed enumeration of abstract keys, exactly the
variants referenced by `src/platform.rs`, plus the `None` sentinel. -/
inductive Key where
  | None
  | Backspace | Enter | Tab | Shift | Control | Pause | Capital
  | Escape | Convert | NonConvert | Accept | ModeChange | Space
  | Prior | Next | End | Home | Left | Up | Right | Down
  | Select | Print | Execute | Snapshot | Insert | Delete | Help
  | A | B | C | D | E | F | G | H | I | J | K | L | M
  | N | O | P | Q | R | S | T | U | V | W | X | Y | Z
  | N0 | N1 | N2 | N3 | N4 | N5 | N6 | N7 | N8 | N9
  | Lwin | Rwin | Apps | Sleep
  | Numpad0 | Numpad1 | Numpad2 | Numpad3 | Numpad4
  | Numpad5 | Numpad6 | Numpad7 | Numpad8 | Numpad9
  | Multiply | Add | Separator | Subtract | Decimal | Divide
  | F1 | F2 | F3 | F4 | F5 | F6 | F7 | F8 | F9 | F10 | F11 | F12
  | F13 | F14 | F15 | F16 | F17 | F18 | F19 | F20 | F21 | F22 | F23 | F24
  | Numlock | ScrollLock | NumpadEqual
  | LShift | RShift | LControl | RControl | LAlt | RAlt
  | Semicolon | Plus | Comma | Minus | Period | Slash | Grave
deriving DecidableEq, Repr

/-- WM_CREATE native message code. -/
def WM_CREATE : Nat := 0x0001
/-- WM_DESTROY native message code. -/
def WM_DESTROY : Nat := 0x0002
/-- WM_SIZE native message code. -/
def WM_SIZE : Nat := 0x0005
/-- WM_CLOSE native message code. -/
def WM_CLOSE : Nat := 0x0010
/-- WM_ERASEBKGND native message code. -/
def WM_ERASEBKGND : Nat := 0x0014
/-- WM_SHOWWINDOW native message code. -/
def WM_SHOWWINDOW : Nat := 0x0018
/-- WM_KEYDOWN native message code. -/
def WM_KEYDOWN : Nat := 0x0100
/-- WM_KEYUP native message code. -/
def WM_KEYUP : Nat := 0x0101
/-- WM_SYSKEYDOWN native message code. -/
def WM_SYSKEYDOWN : Nat := 0x0104
/-- WM_SYSKEYUP native message code. -/
def WM_SYSKEYUP : Nat := 0x0105
/-- WM_MOUSEMOVE native message code. -/
def WM_MOUSEMOVE : Nat := 0x0200
/-- WM_LBUTTONDOWN native message code. -/
def WM_LBUTTONDOWN : Nat := 0x0201
/-- WM_LBUTTONUP native message code. -/
def WM_LBUTTONUP : Nat := 0x0202
/-- WM_RBUTTONDOWN native message code. -/
def WM_RBUTTONDOWN : Nat := 0x0204
/-- WM_RBUTTONUP native message code. -/
def WM_RBUTTONUP : Nat := 0x0205
/-- WM_MBUTTONDOWN native message code. -/
def WM_MBUTTONDOWN : Nat := 0x0207
/-- WM_MBUTTONUP native message code. -/
def WM_MBUTTONUP : Nat := 0x0208
/-- WM_MOUSEWHEEL native message code. -/
def WM_MOUSEWHEEL : Nat := 0x020A

/-- EventType.fromU32 embeds `impl From<u32> for EventType`
(src/platform.rs lines 211-234): the match arms in source order,
with `EventType::None` as the fallback. -/
def EventType.fromU32 (msg : Nat) : EventType :=
  if msg = WM_CLOSE then EventType.WinClose
  else if msg = WM_SHOWWINDOW then EventType.WinShow
  else if msg = WM_SIZE then EventType.WinResize
  else if msg = WM_KEYDOWN then EventType.KeyDown
  else if msg = WM_SYSKEYDOWN then EventType.KeyDown
  else if msg = WM_KEYUP then EventType.KeyUp
  else if msg = WM_SYSKEYUP then EventType.KeyUp
  else if msg = WM_MOUSEMOVE then EventType.MouseMove
  else if msg = WM_MOUSEWHEEL then EventType.MouseWheel
  else if msg = WM_LBUTTONDOWN then EventType.MouseLeftBtnDown
  else if msg = WM_MBUTTONDOWN then EventType.MouseMidBtnDown
  else if msg = WM_RBUTTONDOWN then EventType.MouseRightBtnDown
  else if msg = WM_LBUTTONUP then EventType.MouseLeftBtnUp
  else if msg = WM_MBUTTONUP then EventType.MouseMidBtnUp
  else if msg = WM_RBUTTONUP then EventType.MouseRightBtnUp
  else EventType.None

/-- msgTable is the enumerated translation table of §4.2.1: native
message code paired with the EventType the table assigns to it. -/
def msgTable : List (Nat × EventType) :=
  [(WM_CLOSE, EventType.WinClose),
   (WM_SHOWWINDOW, EventType.WinShow),
   (WM_SIZE, EventType.WinResize),
   (WM_KEYDOWN, EventType.KeyDown),
   (WM_SYSKEYDOWN, EventType.KeyDown),
   (WM_KEYUP, EventType.KeyUp),
   (WM_SYSKEYUP, EventType.KeyUp),
   (WM_MOUSEMOVE, EventType.MouseMove),
   (WM_MOUSEWHEEL, EventType.MouseWheel),
   (WM_LBUTTONDOWN, EventType.MouseLeftBtnDown),
   (WM_MBUTTONDOWN, EventType.MouseMidBtnDown),
   (WM_RBUTTONDOWN, EventType.MouseRightBtnDown),
   (WM_LBUTTONUP, EventType.MouseLeftBtnUp),
   (WM_MBUTTONUP, EventType.MouseMidBtnUp),
   (WM_RBUTTONUP, EventType.MouseRightBtnUp)]

/-- Key.fromU16 embeds the windows `impl From<u16> for Key`
(src/platform.rs lines 412-543): every match arm in source order,
with `Key::None` as the fallback. -/
def Key.fromU16 (val : Nat) : Key :=
  if val = 0x08 then Key.Backspace
  else if val = 0x0D then Key.Enter
  else if val = 0x09 then Key.Tab
  else if val = 0x10 then Key.Shift
  else if val = 0x11 then Key.Control
  else if val = 0x13 then Key.Pause
  else if val = 0x14 then Key.Capital
  else if val = 0x1B then Key.Escape
  else if val = 0x1C then Key.Convert
  else if val = 0x1D then Key.NonConvert
  else if val = 0x1E then Key.Accept
  else if val = 0x1F then Key.ModeChange
  else if val = 0x20 then Key.Space
  else if val = 0x21 then Key.Prior
  else if val = 0x22 then Key.Next
  else if val = 0x23 then Key.End
  else if val = 0x24 then Key.Home
  else if val = 0x25 then Key.Left
  else if val = 0x26 then Key.Up
  else if val = 0x27 then Key.Right
  else if val = 0x28 then Key.Down
  else if val = 0x29 then Key.Select
  else if val = 0x2A then Key.Print
  else if val = 0x2B then Key.Execute
  else if val = 0x2C then Key.Snapshot
  else if val = 0x2D then Key.Insert
  else if val = 0x2E then Key.Delete
  else if val = 0x2F then Key.Help
  else if val = 0x41 then Key.A
  else if val = 0x42 then Key.B
  else if val = 0x43 then Key.C
  else if val = 0x44 then Key.D
  else if val = 0x45 then Key.E
  else if val = 0x46 then Key.F
  else if val = 0x47 then Key.G
  else if val = 0x48 then Key.H
  else if val = 0x49 then Key.I
  else if val = 0x4A then Key.J
  else if val = 0x4B then Key.K
  else if val = 0x4C then Key.L
  else if val = 0x4D then Key.M
  else if val = 0x4E then Key.N
  else if val = 0x4F then Key.O
  else if val = 0x50 then Key.P
  else if val = 0x51 then Key.Q
  else if val = 0x52 then Key.R
  else if val = 0x53 then Key.S
  else if val = 0x54 then Key.T
  else if val = 0x55 then Key.U
  else if val = 0x56 then Key.V
  else if val = 0x57 then Key.W
  else if val = 0x58 then Key.X
  else if val = 0x59 then Key.Y
  else if val = 0x5A then Key.Z
  else if val = 0x30 then Key.N0
  else if val = 0x31 then Key.N1
  else if val = 0x32 then Key.N2
  else if val = 0x33 then Key.N3
  else if val = 0x34 then Key.N4
  else if val = 0x35 then Key.N5
  else if val = 0x36 then Key.N6
  else if val = 0x37 then Key.N7
  else if val = 0x38 then Key.N8
  else if val = 0x39 then Key.N9
  else if val = 0x5B then Key.Lwin
  else if val = 0x5C then Key.Rwin
  else if val = 0x5D then Key.Apps
  else if val = 0x5F then Key.Sleep
  else if val = 0x60 then Key.Numpad0
  else if val = 0x61 then Key.Numpad1
  else if val = 0x62 then Key.Numpad2
  else if val = 0x63 then Key.Numpad3
  else if val = 0x64 then Key.Numpad4
  else if val = 0x65 then Key.Numpad5
  else if val = 0x66 then Key.Numpad6
  else if val = 0x67 then Key.Numpad7
  else if val = 0x68 then Key.Numpad8
  else if val = 0x69 then Key.Numpad9
  else if val = 0x6A then Key.Multiply
  else if val = 0x6B then Key.Add
  else if val = 0x6C then Key.Separator
  else if val = 0x6D then Key.Subtract
  else if val = 0x6E then Key.Decimal
  else if val = 0x6F then Key.Divide
  else if val = 0x70 then Key.F1
  else if val = 0x71 then Key.F2
  else if val = 0x72 then Key.F3
  else if val = 0x73 then Key.F4
  else if val = 0x74 then Key.F5
  else if val = 0x75 then Key.F6
  else if val = 0x76 then Key.F7
  else if val = 0x77 then Key.F8
  else if val = 0x78 then Key.F9
  else if val = 0x79 then Key.F10
  else if val = 0x7A then Key.F11
  else if val = 0x7B then Key.F12
  else if val = 0x7C then Key.F13
  else if val = 0x7D then Key.F14
  else if val = 0x7E then Key.F15
  else if val = 0x7F then Key.F16
  else if val = 0x80 then Key.F17
  else if val = 0x81 then Key.F18
  else if val = 0x82 then Key.F19
  else if val = 0x83 then Key.F20
  else if val = 0x84 then Key.F21
  else if val = 0x85 then Key.F22
  else if val = 0x86 then Key.F23
  else if val = 0x87 then Key.F24
  else if val = 0x90 then Key.Numlock
  else if val = 0x91 then Key.ScrollLock
  else if val = 0x92 then Key.NumpadEqual
  else if val = 0xA0 then Key.LShift
  else if val = 0xA1 then Key.RShift
  else if val = 0xA2 then Key.LControl
  else if val = 0xA3 then Key.RControl
  else if val = 0xA4 then Key.LAlt
  else if val = 0xA5 then Key.RAlt
  else if val = 0xBA then Key.Semicolon
  else if val = 0xBB then Key.Plus
  else if val = 0xBC then Key.Comma
  else if val = 0xBD then Key.Minus
  else if val = 0xBE then Key.Period
  else if val = 0xBF then Key.Slash
  else if val = 0xC0 then Key.Grave
  else Key.None

/-- XK_Escape is the X keysym for the Escape key, the single code
of the linux key table. -/
def XK_Escape : Nat := 0xFF1B

/-- Key.fromU16Linux embeds the linux `impl From<u16> for Key`
(src/platform.rs lines 545-553): only the Escape keysym is mapped. -/
def Key.fromU16Linux (val : Nat) : Key :=
  if val = XK_Escape then Key.Escape else Key.None

/-- winKeyTable is the enumerated key table of the windows backend:
native virtual-key code paired with the Key the table assigns. -/
def winKeyTable : List (Nat × Key) :=
  [(0x08, Key.Backspace), (0x0D, Key.Enter), (0x09, Key.Tab),
   (0x10, Key.Shift), (0x11, Key.Control), (0x13, Key.Pause),
   (0x14, Key.Capital), (0x1B, Key.Escape), (0x1C, Key.Convert),
   (0x1D, Key.NonConvert), (0x1E, Key.Accept), (0x1F, Key.ModeChange),
   (0x20, Key.Space), (0x21, Key.Prior), (0x22, Key.Next),
   (0x23, Key.End), (0x24, Key.Home), (0x25, Key.Left),
   (0x26, Key.Up), (0x27, Key.Right), (0x28, Key.Down),
   (0x29, Key.Select), (0x2A, Key.Print), (0x2B, Key.Execute),
   (0x2C, Key.Snapshot), (0x2D, Key.Insert), (0x2E, Key.Delete),
   (0x2F, Key.Help),
   (0x41, Key.A), (0x42, Key.B), (0x43, Key.C), (0x44, Key.D),
   (0x45, Key.E), (0x46, Key.F), (0x47, Key.G), (0x48, Key.H),
   (0x49, Key.I), (0x4A, Key.J), (0x4B, Key.K), (0x4C, Key.L),
   (0x4D, Key.M), (0x4E, Key.N), (0x4F, Key.O), (0x50, Key.P),
   (0x51, Key.Q), (0x52, Key.R), (0x53, Key.S), (0x54, Key.T),
   (0x55, Key.U), (0x56, Key.V), (0x57, Key.W), (0x58, Key.X),
   (0x59, Key.Y), (0x5A, Key.Z),
   (0x30, Key.N0), (0x31, Key.N1), (0x32, Key.N2), (0x33, Key.N3),
   (0x34, Key.N4), (0x35, Key.N5), (0x36, Key.N6), (0x37, Key.N7),
   (0x38, Key.N8), (0x39, Key.N9),
   (0x5B, Key.Lwin), (0x5C, Key.Rwin), (0x5D, Key.Apps), (0x5F, Key.Sleep),
   (0x60, Key.Numpad0), (0x61, Key.Numpad1), (0x62, Key.Numpad2),
   (0x63, Key.Numpad3), (0x64, Key.Numpad4), (0x65, Key.Numpad5),
   (0x66, Key.Numpad6), (0x67, Key.Numpad7), (0x68, Key.Numpad8),
   (0x69, Key.Numpad9),
   (0x6A, Key.Multiply), (0x6B, Key.Add), (0x6C, Key.Separator),
   (0x6D, Key.Subtract), (0x6E, Key.Decimal), (0x6F, Key.Divide),
   (0x70, Key.F1), (0x71, Key.F2), (0x72, Key.F3), (0x73, Key.F4),
   (0x74, Key.F5), (0x75, Key.F6), (0x76, Key.F7), (0x77, Key.F8),
   (0x78, Key.F9), (0x79, Key.F10), (0x7A, Key.F11), (0x7B, Key.F12),
   (0x7C, Key.F13), (0x7D, Key.F14), (0x7E, Key.F15), (0x7F, Key.F16),
   (0x80, Key.F17), (0x81, Key.F18), (0x82, Key.F19), (0x83, Key.F20),
   (0x84, Key.F21), (0x85, Key.F22), (0x86, Key.F23), (0x87, Key.F24),
   (0x90, Key.Numlock), (0x91, Key.ScrollLock), (0x92, Key.NumpadEqual),
   (0xA0, Key.LShift), (0xA1, Key.RShift), (0xA2, Key.LControl),
   (0xA3, Key.RControl), (0xA4, Key.LAlt), (0xA5, Key.RAlt),
   (0xBA, Key.Semicolon), (0xBB, Key.Plus), (0xBC, Key.Comma),
   (0xBD, Key.Minus), (0xBE, Key.Period), (0xBF, Key.Slash),
   (0xC0, Key.Grave)]

/-- C1: every native message code of the enumerated translation
table converts to exactly the EventType the table specifies, and
every code outside the table converts to EventType.None. -/
theorem c1_msg_translation_table :
    (∀ p ∈ msgTable, EventType.fromU32 p.1 = p.2) ∧
    (∀ m : Nat, m ∉ msgTable.map Prod.fst →
      EventType.fromU32 m = EventType.None) := by
  constructor
  · decide
  · intro m hm
    by_cases hb : m < 1024
    · have hall : ∀ m < 1024, m ∉ msgTable.map Prod.fst →
          EventType.fromU32 m = EventType.None := by decide
      exact hall m hb hm
    · unfold EventType.fromU32 WM_CLOSE WM_SHOWWINDOW WM_SIZE WM_KEYDOWN
        WM_SYSKEYDOWN WM_KEYUP WM_SYSKEYUP WM_MOUSEMOVE WM_MOUSEWHEEL
        WM_LBUTTONDOWN WM_MBUTTONDOWN WM_RBUTTONDOWN WM_LBUTTONUP
        WM_MBUTTONUP WM_RBUTTONUP
      rw [if_neg (show ¬ (m = 16) by omega),
        if_neg (show ¬ (m = 24) by omega),
        if_neg (show ¬ (m = 5) by omega),
        if_neg (show ¬ (m = 256) by omega),
        if_neg (show ¬ (m = 260) by omega),
        if_neg (show ¬ (m = 257) by omega),
        if_neg (show ¬ (m = 261) by omega),
        if_neg (show ¬ (m = 512) by omega),
        if_neg (show ¬ (m = 522) by omega),
        if_neg (show ¬ (m = 513) by omega),
        if_neg (show ¬ (m = 519) by omega),
        if_neg (show ¬ (m = 516) by omega),
        if_neg (show ¬ (m = 514) by omega),
        if_neg (show ¬ (m = 520) by omega),
        if_neg (show ¬ (m = 517) by omega)]

/-- C1 witness: the theorem applied to the concrete out-of-table
code 999 yields EventType.None. -/
theorem c1_msg_translation_table_witness :
    EventType.fromU32 999 = EventType.None :=
  c1_msg_translation_table.2 999 (by decide)

/-- C2: the key conversion is total; every code of the windows key
table converts to exactly the Key the table specifies and every code
outside it to Key.None; on linux only the Escape keysym is mapped
and every other code converts to Key.None. -/
theorem c2_key_translation_total :
    (∀ p ∈ winKeyTable, Key.fromU16 p.1 = p.2) ∧
    (∀ v : Nat, v ∉ winKeyTable.map Prod.fst →
      Key.fromU16 v = Key.None) ∧
    (Key.fromU16Linux XK_Escape = Key.Escape) ∧
    (∀ v : Nat, v ≠ XK_Escape → Key.fromU16Linux v = Key.None) := by
  refine ⟨by decide, ?_, by decide, ?_⟩
  · intro v hv
    by_cases hb : v < 256
    · have hall : ∀ v < 256, v ∉ winKeyTable.map Prod.fst →
          Key.fromU16 v = Key.None := by decide
      exact hall v hb hv
    · unfold Key.fromU16
      rw [if_neg (show ¬ (v = 8) by omega),
        if_neg (show ¬ (v = 13) by omega),
        if_neg (show ¬ (v = 9) by omega),
        if_neg (show ¬ (v = 16) by omega),
        if_neg (show ¬ (v = 17) by omega),
        if_neg (show ¬ (v = 19) by omega),
        if_neg (show ¬ (v = 20) by omega),
        if_neg (show ¬ (v = 27) by omega),
        if_neg (show ¬ (v = 28) by omega),
        if_neg (show ¬ (v = 29) by omega),
        if_neg (show ¬ (v = 30) by omega),
        if_neg (show ¬ (v = 31) by omega),
        if_neg (show ¬ (v = 32) by omega),
        if_neg (show ¬ (v = 33) by omega),
        if_neg (show ¬ (v = 34) by omega),
        if_neg (show ¬ (v = 35) by omega),
        if_neg (show ¬ (v = 36) by omega),
        if_neg (show ¬ (v = 37) by omega),
        if_neg (show ¬ (v = 38) by omega),
        if_neg (show ¬ (v = 39) by omega),
        if_neg (show ¬ (v = 40) by omega),
        if_neg (show ¬ (v = 41) by omega),
        if_neg (show ¬ (v = 42) by omega),
        if_neg (show ¬ (v = 43) by omega),
        if_neg (show ¬ (v = 44) by omega),
        if_neg (show ¬ (v = 45) by omega),
        if_neg (show ¬ (v = 46) by omega),
        if_neg (show ¬ (v = 47) by omega),
        if_neg (show ¬ (v = 65) by omega),
        if_neg (show ¬ (v = 66) by omega),
        if_neg (show ¬ (v = 67) by omega),
        if_neg (show ¬ (v = 68) by omega),
        if_neg (show ¬ (v = 69) by omega),
        if_neg (show ¬ (v = 70) by omega),
        if_neg (show ¬ (v = 71) by omega),
        if_neg (show ¬ (v = 72) by omega),
        if_neg (show ¬ (v = 73) by omega),
        if_neg (show ¬ (v = 74) by omega),
        if_neg (show ¬ (v = 75) by omega),
        if_neg (show ¬ (v = 76) by omega),
        if_neg (show ¬ (v = 77) by omega),
        if_neg (show ¬ (v = 78) by omega),
        if_neg (show ¬ (v = 79) by omega),
        if_neg (show ¬ (v = 80) by omega),
        if_neg (show ¬ (v = 81) by omega),
        if_neg (show ¬ (v = 82) by omega),
        if_neg (show ¬ (v = 83) by omega),
        if_neg (show ¬ (v = 84) by omega),
        if_neg (show ¬ (v = 85) by omega),
        if_neg (show ¬ (v = 86) by omega),
        if_neg (show ¬ (v = 87) by omega),
        if_neg (show ¬ (v = 88) by omega),
        if_neg (show ¬ (v = 89) by omega),
        if_neg (show ¬ (v = 90) by omega),
        if_neg (show ¬ (v = 48) by omega),
        if_neg (show ¬ (v = 49) by omega),
        if_neg (show ¬ (v = 50) by omega),
        if_neg (show ¬ (v = 51) by omega),
        if_neg (show ¬ (v = 52) by omega),
        if_neg (show ¬ (v = 53) by omega),
        if_neg (show ¬ (v = 54) by omega),
        if_neg (show ¬ (v = 55) by omega),
        if_neg (show ¬ (v = 56) by omega),
        if_neg (show ¬ (v = 57) by omega),
        if_neg (show ¬ (v = 91) by omega),
        if_neg (show ¬ (v = 92) by omega),
        if_neg (show ¬ (v = 93) by omega),
        if_neg (show ¬ (v = 95) by omega),
        if_neg (show ¬ (v = 96) by omega),
        if_neg (show ¬ (v = 97) by omega),
        if_neg (show ¬ (v = 98) by omega),
        if_neg (show ¬ (v = 99) by omega),
        if_neg (show ¬ (v = 100) by omega),
        if_neg (show ¬ (v = 101) by omega),
        if_neg (show ¬ (v = 102) by omega),
        if_neg (show ¬ (v = 103) by omega),
        if_neg (show ¬ (v = 104) by omega),
        if_neg (show ¬ (v = 105) by omega),
        if_neg (show ¬ (v = 106) by omega),
        if_neg (show ¬ (v = 107) by omega),
        if_neg (show ¬ (v = 108) by omega),
        if_neg (show ¬ (v = 109) by omega),
        if_neg (show ¬ (v = 110) by omega),
        if_neg (show ¬ (v = 111) by omega),
        if_neg (show ¬ (v = 112) by omega),
        if_neg (show ¬ (v = 113) by omega),
        if_neg (show ¬ (v = 114) by omega),
        if_neg (show ¬ (v = 115) by omega),
        if_neg (show ¬ (v = 116) by omega),
        if_neg (show ¬ (v = 117) by omega),
        if_neg (show ¬ (v = 118) by omega),
        if_neg (show ¬ (v = 119) by omega),
        if_neg (show ¬ (v = 120) by omega),
        if_neg (show ¬ (v = 121) by omega),
        if_neg (show ¬ (v = 122) by omega),
        if_neg (show ¬ (v = 123) by omega),
        if_neg (show ¬ (v = 124) by omega),
        if_neg (show ¬ (v = 125) by omega),
        if_neg (show ¬ (v = 126) by omega),
        if_neg (show ¬ (v = 127) by omega),
        if_neg (show ¬ (v = 128) by omega),
        if_neg (show ¬ (v = 129) by omega),
        if_neg (show ¬ (v = 130) by omega),
        if_neg (show ¬ (v = 131) by omega),
        if_neg (show ¬ (v = 132) by omega),
        if_neg (show ¬ (v = 133) by omega),
        if_neg (show ¬ (v = 134) by omega),
        if_neg (show ¬ (v = 135) by omega),
        if_neg (show ¬ (v = 144) by omega),
        if_neg (show ¬ (v = 145) by omega),
        if_neg (show ¬ (v = 146) by omega),
        if_neg (show ¬ (v = 160) by omega),
        if_neg (show ¬ (v = 161) by omega),
        if_neg (show ¬ (v = 162) by omega),
        if_neg (show ¬ (v = 163) by omega),
        if_neg (show ¬ (v = 164) by omega),
        if_neg (show ¬ (v = 165) by omega),
        if_neg (show ¬ (v = 186) by omega),
        if_neg (show ¬ (v = 187) by omega),
        if_neg (show ¬ (v = 188) by omega),
        if_neg (show ¬ (v = 189) by omega),
        if_neg (show ¬ (v = 190) by omega),
        if_neg (show ¬ (v = 191) by omega),
        if_neg (show ¬ (v = 192) by omega)]
  · intro v hv
    unfold Key.fromU16Linux
    rw [if_neg hv]

/-- C2 witness: the theorem applied to the concrete out-of-table
codes 0xC1 (windows) and 7 (linux) yields Key.None for both. -/
theorem c2_key_translation_total_witness :
    Key.fromU16 0xC1 = Key.None ∧ Key.fromU16Linux 7 = Key.None :=
  ⟨c2_key_translation_total.2.1 0xC1 (by decide),
   c2_key_translation_total.2.2.2 7 (by decide)⟩

/-- LogLevel enumerates the four severities of the diagnostics sink
(fatal, error, warn, info). -/
inductive LogLevel where
  | fatal
  | error
  | warn
  | info
deriving DecidableEq, Repr

/-- closeEvent is the WinClose event with default (zero) payload, as
built by both backends on a close notification. -/
def closeEvent : Event :=
  ⟨EventType.WinClose, EventData.default, EventData.default⟩

/-- add_event_to_que embeds the windows helper of the same name
(src/platform.rs lines 236-251). The per-window user-data slot is
the `Option (List Event)` argument: when it holds a queue the event
is pushed at the back; when it is empty the native last-error code
is consulted and a nonzero value is logged at error severity while
zero drops the notification silently. -/
def add_event_to_que (event : Event) (evQue : Option (List Event))
    (lastError : Nat) : Option (List Event) × List LogLevel :=
  match evQue with
  | some q => (some (q ++ [event]), [])
  | none =>
      if lastError ≠ 0 then (none, [LogLevel.error]) else (none, [])

/-- toI16 reinterprets the low 16 bits of a native word as a signed
16-bit value (the `as i16` casts of the source). -/
def toI16 (n : Nat) : Int :=
  if n % 65536 < 32768 then (n % 65536 : Int)
  else (n % 65536 : Int) - 65536

/-- GET_X_LPARAM extracts the low word of lparam as a signed 16-bit
value, as the winapi macro does. -/
def GET_X_LPARAM (lparam : Nat) : Int := toI16 lparam

/-- GET_Y_LPARAM extracts the high word of lparam as a signed 16-bit
value, as the winapi macro does. -/
def GET_Y_LPARAM (lparam : Nat) : Int := toI16 (lparam / 65536)

/-- GET_WHEEL_DELTA_WPARAM extracts the high word of wparam as a
signed 16-bit wheel delta, as the winapi macro does. -/
def GET_WHEEL_DELTA_WPARAM (wparam : Nat) : Int := toI16 (wparam / 65536)

/-- ProcResult is the value a window-procedure invocation returns:
either an explicit LRESULT or deferral to `DefWindowProcA`. -/
inductive ProcResult where
  | value (n : Int)
  | defWindowProc
deriving DecidableEq, Repr

/-- WinProcOut is the observable outcome of one `window_proc`
invocation: the state of the user-data queue slot afterwards, the
diagnostics emitted, the returned LRESULT, and whether a native
quit signal was posted. -/
structure WinProcOut where
  queue : Option (List Event)
  logs : List LogLevel
  result : ProcResult
  postQuit : Bool
deriving DecidableEq, Repr

/-- window_proc embeds the win32 callback of the same name
(src/platform.rs lines 254-410): the WM_CREATE pass-through first,
then the match arms in source order, with fall-through to
`DefWindowProcA` after the match. `wparam` and `lparam` carry the
native words as raw bit patterns. -/
def window_proc (msg : Nat) (wparam : Nat) (lparam : Nat)
    (evQue : Option (List Event)) (lastError : Nat) : WinProcOut :=
  if msg = WM_CREATE then ⟨evQue, [], ProcResult.defWindowProc, false⟩
  else if msg = WM_ERASEBKGND then ⟨evQue, [], ProcResult.value 1, false⟩
  else if msg = WM_CLOSE then
    let r := add_event_to_que closeEvent evQue lastError
    ⟨r.1, r.2, ProcResult.value 0, false⟩
  else if msg = WM_DESTROY then ⟨evQue, [], ProcResult.value 0, true⟩
  else if msg = WM_KEYDOWN ∨ msg = WM_SYSKEYDOWN then
    let r := add_event_to_que
      ⟨EventType.KeyDown, EventData.ofUnsigned wparam, EventData.default⟩
      evQue lastError
    ⟨r.1, r.2, ProcResult.defWindowProc, false⟩
  else if msg = WM_KEYUP ∨ msg = WM_SYSKEYUP then
    let r := add_event_to_que
      ⟨EventType.KeyUp, EventData.ofUnsigned wparam, EventData.default⟩
      evQue lastError
    ⟨r.1, r.2, ProcResult.defWindowProc, false⟩
  else if msg = WM_MOUSEMOVE then
    let r := add_event_to_que
      ⟨EventType.MouseMove, EventData.ofSigned (GET_X_LPARAM lparam),
        EventData.ofSigned (GET_Y_LPARAM lparam)⟩
      evQue lastError
    ⟨r.1, r.2, ProcResult.defWindowProc, false⟩
  else if msg = WM_MOUSEWHEEL then
    let z_delta := GET_WHEEL_DELTA_WPARAM wparam
    if z_delta ≠ 0 then
      if z_delta < 0 then
        let r := add_event_to_que
          ⟨EventType.MouseWheel, EventData.ofSigned (-1), EventData.default⟩
          evQue lastError
        ⟨r.1, r.2, ProcResult.defWindowProc, false⟩
      else
        let r := add_event_to_que
          ⟨EventType.MouseWheel, EventData.ofSigned 1, EventData.default⟩
          evQue lastError
        ⟨r.1, r.2, ProcResult.defWindowProc, false⟩
    else ⟨evQue, [], ProcResult.defWindowProc, false⟩
  else if msg = WM_LBUTTONDOWN then
    let r := add_event_to_que
      ⟨EventType.MouseLeftBtnDown, EventData.default, EventData.default⟩
      evQue lastError
    ⟨r.1, r.2, ProcResult.defWindowProc, false⟩
  else if msg = WM_MBUTTONDOWN then
    let r := add_event_to_que
      ⟨EventType.MouseMidBtnDown, EventData.default, EventData.default⟩
      evQue lastError
    ⟨r.1, r.2, ProcResult.defWindowProc, false⟩
  else if msg = WM_RBUTTONDOWN then
    let r := add_event_to_que
      ⟨EventType.MouseRightBtnDown, EventData.default, EventData.default⟩
      evQue lastError
    ⟨r.1, r.2, ProcResult.defWindowProc, false⟩
  else if msg = WM_LBUTTONUP then
    let r := add_event_to_que
      ⟨EventType.MouseLeftBtnUp, EventData.default, EventData.default⟩
      evQue lastError
    ⟨r.1, r.2, ProcResult.defWindowProc, false⟩
  else if msg = WM_MBUTTONUP then
    let r := add_event_to_que
      ⟨EventType.MouseMidBtnUp, EventData.default, EventData.default⟩
      evQue lastError
    ⟨r.1, r.2, ProcResult.defWindowProc, false⟩
  else if msg = WM_RBUTTONUP then
    let r := add_event_to_que
      ⟨EventType.MouseRightBtnUp, EventData.default, EventData.default⟩
      evQue lastError
    ⟨r.1, r.2, ProcResult.defWindowProc, false⟩
  else ⟨evQue, [], ProcResult.defWindowProc, false⟩

/-- WinMsg is one pending native notification of the message-loop
backend: message code plus the two native parameter words. -/
structure WinMsg where
  msg : Nat
  wparam : Nat
  lparam : Nat
deriving DecidableEq, Repr

/-- win_emit is the list of events one notification contributes to
the queue, read off from `window_proc` run on an empty queue. -/
def win_emit (msg wparam lparam : Nat) : List Event :=
  ((window_proc msg wparam lparam (some []) 0).queue).getD []

/-- win_update embeds `PlatformWindow::update` of the windows
backend (src/platform.rs lines 176-197): the queue address is stored
in the per-window user-data slot, so every dispatched message
reaches `window_proc` with the slot holding the queue, and pending
messages are drained in order. -/
def win_update (msgs : List WinMsg) (evQue : List Event) : List Event :=
  msgs.foldl
    (fun q m => ((window_proc m.msg m.wparam m.lparam (some q) 0).queue).getD q)
    evQue

/-- C4: on the message-loop backend every KeyDown/KeyUp enqueue
carries in data0 the unsigned 16-bit value of the raw native
virtual-key code, not the translated Key; the concrete code 0x41
enqueues KeyDown with data0 = 0x41, and the key table separately
translates 0x41 to Key.A. -/
theorem c4_key_events_carry_raw_code :
    (∀ (w l : Nat) (q : List Event),
      (window_proc WM_KEYDOWN w l (some q) 0).queue =
        some (q ++ [⟨EventType.KeyDown, EventData.ofUnsigned w, EventData.default⟩]) ∧
      (window_proc WM_SYSKEYDOWN w l (some q) 0).queue =
        some (q ++ [⟨EventType.KeyDown, EventData.ofUnsigned w, EventData.default⟩]) ∧
      (window_proc WM_KEYUP w l (some q) 0).queue =
        some (q ++ [⟨EventType.KeyUp, EventData.ofUnsigned w, EventData.default⟩]) ∧
      (window_proc WM_SYSKEYUP w l (some q) 0).queue =
        some (q ++ [⟨EventType.KeyUp, EventData.ofUnsigned w, EventData.default⟩])) ∧
    win_emit WM_KEYDOWN 0x41 0 =
      [⟨EventType.KeyDown, ⟨0x41⟩, EventData.default⟩] ∧
    (EventData.ofUnsigned 0x41).bits = 0x41 ∧
    Key.fromU16 0x41 = Key.A := by
  refine ⟨fun w l q => ⟨?_, ?_, ?_, ?_⟩, by decide, by decide, by decide⟩ <;>
    simp [window_proc, add_event_to_que, WM_CREATE, WM_ERASEBKGND, WM_CLOSE,
      WM_DESTROY, WM_KEYDOWN, WM_SYSKEYDOWN, WM_KEYUP, WM_SYSKEYUP]

/-- C5: a mouse-wheel notification with positive delta enqueues
exactly one MouseWheel event with data0 = +1, a negative delta
enqueues exactly one with data0 = -1, and a zero delta enqueues
nothing. -/
theorem c5_wheel_sign_normalization :
    ∀ (w l : Nat) (q : List Event),
      (0 < GET_WHEEL_DELTA_WPARAM w →
        (window_proc WM_MOUSEWHEEL w l (some q) 0).queue =
          some (q ++ [⟨EventType.MouseWheel, EventData.ofSigned 1,
            EventData.default⟩])) ∧
      (GET_WHEEL_DELTA_WPARAM w < 0 →
        (window_proc WM_MOUSEWHEEL w l (some q) 0).queue =
          some (q ++ [⟨EventType.MouseWheel, EventData.ofSigned (-1),
            EventData.default⟩])) ∧
      (GET_WHEEL_DELTA_WPARAM w = 0 →
        (window_proc WM_MOUSEWHEEL w l (some q) 0).queue = some q) := by
  intro w l q
  refine ⟨fun h => ?_, fun h => ?_, fun h => ?_⟩ <;>
    simp [window_proc, add_event_to_que, WM_CREATE, WM_ERASEBKGND, WM_CLOSE,
      WM_DESTROY, WM_KEYDOWN, WM_SYSKEYDOWN, WM_KEYUP, WM_SYSKEYUP,
      WM_MOUSEMOVE, WM_MOUSEWHEEL] <;>
    split_ifs <;> first | rfl | omega

/-- C5 witness: the theorem applied at wheel words with delta +120,
delta -120 and delta 0. -/
theorem c5_wheel_sign_normalization_witness :
    (window_proc WM_MOUSEWHEEL 7864320 0 (some []) 0).queue =
      some (([] : List Event) ++
        [⟨EventType.MouseWheel, EventData.ofSigned 1, EventData.default⟩]) ∧
    (window_proc WM_MOUSEWHEEL 4287823872 0 (some []) 0).queue =
      some (([] : List Event) ++
        [⟨EventType.MouseWheel, EventData.ofSigned (-1), EventData.default⟩]) ∧
    (window_proc WM_MOUSEWHEEL 0 0 (some []) 0).queue =
      some ([] : List Event) :=
  ⟨(c5_wheel_sign_normalization 7864320 0 []).1 (by decide),
   (c5_wheel_sign_normalization 4287823872 0 []).2.1 (by decide),
   (c5_wheel_sign_normalization 0 0 []).2.2 (by decide)⟩

/-- C8: when the user-data slot holds a queue the event is appended
to it; when the slot is empty a nonzero native last-error code is
logged at error severity and the event is dropped; when the slot is
empty and the last-error code is zero the event is dropped silently
with no diagnostic. -/
theorem c8_queue_slot_error_handling :
    (∀ (e : Event) (q : List Event) (err : Nat),
      add_event_to_que e (some q) err = (some (q ++ [e]), [])) ∧
    (∀ (e : Event) (err : Nat), err ≠ 0 →
      add_event_to_que e none err = (none, [LogLevel.error])) ∧
    (∀ e : Event, add_event_to_que e none 0 = (none, [])) := by
  refine ⟨fun e q err => rfl, fun e err h => ?_, fun e => rfl⟩
  simp [add_event_to_que, h]

/-- C8 witness: the theorem applied to the close event with an empty
slot and the concrete nonzero last-error code 5. -/
theorem c8_queue_slot_error_handling_witness :
    add_event_to_que closeEvent none 5 = (none, [LogLevel.error]) :=
  c8_queue_slot_error_handling.2.1 closeEvent 5 (by decide)

/-- win_emit_spec: running the callback with the user-data slot
holding queue q appends exactly the emitted events of that message
to q. -/
theorem win_emit_spec (msg w l : Nat) (q : List Event) :
    (window_proc msg w l (some q) 0).queue = some (q ++ win_emit msg w l) := by
  by_cases h1 : msg = 1
  · simp [h1, win_emit, window_proc, add_event_to_que, closeEvent,
      List.countP_cons, List.countP_nil,
      WM_CREATE, WM_ERASEBKGND, WM_CLOSE, WM_DESTROY, WM_KEYDOWN,
      WM_SYSKEYDOWN, WM_KEYUP, WM_SYSKEYUP, WM_MOUSEMOVE, WM_MOUSEWHEEL,
      WM_LBUTTONDOWN, WM_MBUTTONDOWN, WM_RBUTTONDOWN, WM_LBUTTONUP,
      WM_MBUTTONUP, WM_RBUTTONUP] <;>
      split_ifs <;> simp
  by_cases h2 : msg = 20
  · simp [h2, win_emit, window_proc, add_event_to_que, closeEvent,
      List.countP_cons, List.countP_nil,
      WM_CREATE, WM_ERASEBKGND, WM_CLOSE, WM_DESTROY, WM_KEYDOWN,
      WM_SYSKEYDOWN, WM_KEYUP, WM_SYSKEYUP, WM_MOUSEMOVE, WM_MOUSEWHEEL,
      WM_LBUTTONDOWN, WM_MBUTTONDOWN, WM_RBUTTONDOWN, WM_LBUTTONUP,
      WM_MBUTTONUP, WM_RBUTTONUP] <;>
      split_ifs <;> simp
  by_cases h3 : msg = 16
  · simp [h3, win_emit, window_proc, add_event_to_que, closeEvent,
      List.countP_cons, List.countP_nil,
      WM_CREATE, WM_ERASEBKGND, WM_CLOSE, WM_DESTROY, WM_KEYDOWN,
      WM_SYSKEYDOWN, WM_KEYUP, WM_SYSKEYUP, WM_MOUSEMOVE, WM_MOUSEWHEEL,
      WM_LBUTTONDOWN, WM_MBUTTONDOWN, WM_RBUTTONDOWN, WM_LBUTTONUP,
      WM_MBUTTONUP, WM_RBUTTONUP] <;>
      split_ifs <;> simp
  by_cases h4 : msg = 2
  · simp [h4, win_emit, window_proc, add_event_to_que, closeEvent,
      List.countP_cons, List.countP_nil,
      WM_CREATE, WM_ERASEBKGND, WM_CLOSE, WM_DESTROY, WM_KEYDOWN,
      WM_SYSKEYDOWN, WM_KEYUP, WM_SYSKEYUP, WM_MOUSEMOVE, WM_MOUSEWHEEL,
      WM_LBUTTONDOWN, WM_MBUTTONDOWN, WM_RBUTTONDOWN, WM_LBUTTONUP,
      WM_MBUTTONUP, WM_RBUTTONUP] <;>
      split_ifs <;> simp
  by_cases h5 : msg = 256 ∨ msg = 260
  · rcases h5 with h5p | h5p <;>
      simp [h5p, win_emit, window_proc, add_event_to_que, closeEvent,
      List.countP_cons, List.countP_nil,
      WM_CREATE, WM_ERASEBKGND, WM_CLOSE, WM_DESTROY, WM_KEYDOWN,
      WM_SYSKEYDOWN, WM_KEYUP, WM_SYSKEYUP, WM_MOUSEMOVE, WM_MOUSEWHEEL,
      WM_LBUTTONDOWN, WM_MBUTTONDOWN, WM_RBUTTONDOWN, WM_LBUTTONUP,
      WM_MBUTTONUP, WM_RBUTTONUP] <;>
      split_ifs <;> simp
  by_cases h6 : msg = 257 ∨ msg = 261
  · rcases h6 with h6p | h6p <;>
      simp [h6p, win_emit, window_proc, add_event_to_que, closeEvent,
      List.countP_cons, List.countP_nil,
      WM_CREATE, WM_ERASEBKGND, WM_CLOSE, WM_DESTROY, WM_KEYDOWN,
      WM_SYSKEYDOWN, WM_KEYUP, WM_SYSKEYUP, WM_MOUSEMOVE, WM_MOUSEWHEEL,
      WM_LBUTTONDOWN, WM_MBUTTONDOWN, WM_RBUTTONDOWN, WM_LBUTTONUP,
      WM_MBUTTONUP, WM_RBUTTONUP] <;>
      split_ifs <;> simp
  by_cases h7 : msg = 512
  · simp [h7, win_emit, window_proc, add_event_to_que, closeEvent,
      List.countP_cons, List.countP_nil,
      WM_CREATE, WM_ERASEBKGND, WM_CLOSE, WM_DESTROY, WM_KEYDOWN,
      WM_SYSKEYDOWN, WM_KEYUP, WM_SYSKEYUP, WM_MOUSEMOVE, WM_MOUSEWHEEL,
      WM_LBUTTONDOWN, WM_MBUTTONDOWN, WM_RBUTTONDOWN, WM_LBUTTONUP,
      WM_MBUTTONUP, WM_RBUTTONUP] <;>
      split_ifs <;> simp
  by_cases h8 : msg = 522
  · simp [h8, win_emit, window_proc, add_event_to_que, closeEvent,
      List.countP_cons, List.countP_nil,
      WM_CREATE, WM_ERASEBKGND, WM_CLOSE, WM_DESTROY, WM_KEYDOWN,
      WM_SYSKEYDOWN, WM_KEYUP, WM_SYSKEYUP, WM_MOUSEMOVE, WM_MOUSEWHEEL,
      WM_LBUTTONDOWN, WM_MBUTTONDOWN, WM_RBUTTONDOWN, WM_LBUTTONUP,
      WM_MBUTTONUP, WM_RBUTTONUP] <;>
      split_ifs <;> simp
  by_cases h9 : msg = 513
  · simp [h9, win_emit, window_proc, add_event_to_que, closeEvent,
      List.countP_cons, List.countP_nil,
      WM_CREATE, WM_ERASEBKGND, WM_CLOSE, WM_DESTROY, WM_KEYDOWN,
      WM_SYSKEYDOWN, WM_KEYUP, WM_SYSKEYUP, WM_MOUSEMOVE, WM_MOUSEWHEEL,
      WM_LBUTTONDOWN, WM_MBUTTONDOWN, WM_RBUTTONDOWN, WM_LBUTTONUP,
      WM_MBUTTONUP, WM_RBUTTONUP] <;>
      split_ifs <;> simp
  by_cases h10 : msg = 519
  · simp [h10, win_emit, window_proc, add_event_to_que, closeEvent,
      List.countP_cons, List.countP_nil,
      WM_CREATE, WM_ERASEBKGND, WM_CLOSE, WM_DESTROY, WM_KEYDOWN,
      WM_SYSKEYDOWN, WM_KEYUP, WM_SYSKEYUP, WM_MOUSEMOVE, WM_MOUSEWHEEL,
      WM_LBUTTONDOWN, WM_MBUTTONDOWN, WM_RBUTTONDOWN, WM_LBUTTONUP,
      WM_MBUTTONUP, WM_RBUTTONUP] <;>
      split_ifs <;> simp
  by_cases h11 : msg = 516
  · simp [h11, win_emit, window_proc, add_event_to_que, closeEvent,
      List.countP_cons, List.countP_nil,
      WM_CREATE, WM_ERASEBKGND, WM_CLOSE, WM_DESTROY, WM_KEYDOWN,
      WM_SYSKEYDOWN, WM_KEYUP, WM_SYSKEYUP, WM_MOUSEMOVE, WM_MOUSEWHEEL,
      WM_LBUTTONDOWN, WM_MBUTTONDOWN, WM_RBUTTONDOWN, WM_LBUTTONUP,
      WM_MBUTTONUP, WM_RBUTTONUP] <;>
      split_ifs <;> simp
  by_cases h12 : msg = 514
  · simp [h12, win_emit, window_proc, add_event_to_que, closeEvent,
      List.countP_cons, List.countP_nil,
      WM_CREATE, WM_ERASEBKGND, WM_CLOSE, WM_DESTROY, WM_KEYDOWN,
      WM_SYSKEYDOWN, WM_KEYUP, WM_SYSKEYUP, WM_MOUSEMOVE, WM_MOUSEWHEEL,
      WM_LBUTTONDOWN, WM_MBUTTONDOWN, WM_RBUTTONDOWN, WM_LBUTTONUP,
      WM_MBUTTONUP, WM_RBUTTONUP] <;>
      split_ifs <;> simp
  by_cases h13 : msg = 520
  · simp [h13, win_emit, window_proc, add_event_to_que, closeEvent,
      List.countP_cons, List.countP_nil,
      WM_CREATE, WM_ERASEBKGND, WM_CLOSE, WM_DESTROY, WM_KEYDOWN,
      WM_SYSKEYDOWN, WM_KEYUP, WM_SYSKEYUP, WM_MOUSEMOVE, WM_MOUSEWHEEL,
      WM_LBUTTONDOWN, WM_MBUTTONDOWN, WM_RBUTTONDOWN, WM_LBUTTONUP,
      WM_MBUTTONUP, WM_RBUTTONUP] <;>
      split_ifs <;> simp
  by_cases h14 : msg = 517
  · simp [h14, win_emit, window_proc, add_event_to_que, closeEvent,
      List.countP_cons, List.countP_nil,
      WM_CREATE, WM_ERASEBKGND, WM_CLOSE, WM_DESTROY, WM_KEYDOWN,
      WM_SYSKEYDOWN, WM_KEYUP, WM_SYSKEYUP, WM_MOUSEMOVE, WM_MOUSEWHEEL,
      WM_LBUTTONDOWN, WM_MBUTTONDOWN, WM_RBUTTONDOWN, WM_LBUTTONUP,
      WM_MBUTTONUP, WM_RBUTTONUP] <;>
      split_ifs <;> simp
  simp [h1, h2, h3, h4, h5, h6, h7, h8, h9, h10, h11, h12, h13, h14, win_emit, window_proc, add_event_to_que, closeEvent,
      List.countP_cons, List.countP_nil,
      WM_CREATE, WM_ERASEBKGND, WM_CLOSE, WM_DESTROY, WM_KEYDOWN,
      WM_SYSKEYDOWN, WM_KEYUP, WM_SYSKEYUP, WM_MOUSEMOVE, WM_MOUSEWHEEL,
      WM_LBUTTONDOWN, WM_MBUTTONDOWN, WM_RBUTTONDOWN, WM_LBUTTONUP,
      WM_MBUTTONUP, WM_RBUTTONUP] <;>
      split_ifs <;> simp


/-- win_emit_close_count: one message contributes exactly one
WinClose event when it is WM_CLOSE and none otherwise. -/
theorem win_emit_close_count (msg w l : Nat) :
    (win_emit msg w l).countP (fun e => decide (e.e_type = EventType.WinClose)) =
      if msg = WM_CLOSE then 1 else 0 := by
  by_cases h1 : msg = 1
  · simp [h1, win_emit, window_proc, add_event_to_que, closeEvent,
      List.countP_cons, List.countP_nil,
      WM_CREATE, WM_ERASEBKGND, WM_CLOSE, WM_DESTROY, WM_KEYDOWN,
      WM_SYSKEYDOWN, WM_KEYUP, WM_SYSKEYUP, WM_MOUSEMOVE, WM_MOUSEWHEEL,
      WM_LBUTTONDOWN, WM_MBUTTONDOWN, WM_RBUTTONDOWN, WM_LBUTTONUP,
      WM_MBUTTONUP, WM_RBUTTONUP] <;>
      split_ifs <;> simp_all
  by_cases h2 : msg = 20
  · simp [h2, win_emit, window_proc, add_event_to_que, closeEvent,
      List.countP_cons, List.countP_nil,
      WM_CREATE, WM_ERASEBKGND, WM_CLOSE, WM_DESTROY, WM_KEYDOWN,
      WM_SYSKEYDOWN, WM_KEYUP, WM_SYSKEYUP, WM_MOUSEMOVE, WM_MOUSEWHEEL,
      WM_LBUTTONDOWN, WM_MBUTTONDOWN, WM_RBUTTONDOWN, WM_LBUTTONUP,
      WM_MBUTTONUP, WM_RBUTTONUP] <;>
      split_ifs <;> simp_all
  by_cases h3 : msg = 16
  · simp [h3, win_emit, window_proc, add_event_to_que, closeEvent,
      List.countP_cons, List.countP_nil,
      WM_CREATE, WM_ERASEBKGND, WM_CLOSE, WM_DESTROY, WM_KEYDOWN,
      WM_SYSKEYDOWN, WM_KEYUP, WM_SYSKEYUP, WM_MOUSEMOVE, WM_MOUSEWHEEL,
      WM_LBUTTONDOWN, WM_MBUTTONDOWN, WM_RBUTTONDOWN, WM_LBUTTONUP,
      WM_MBUTTONUP, WM_RBUTTONUP] <;>
      split_ifs <;> simp_all
  by_cases h4 : msg = 2
  · simp [h4, win_emit, window_proc, add_event_to_que, closeEvent,
      List.countP_cons, List.countP_nil,
      WM_CREATE, WM_ERASEBKGND, WM_CLOSE, WM_DESTROY, WM_KEYDOWN,
      WM_SYSKEYDOWN, WM_KEYUP, WM_SYSKEYUP, WM_MOUSEMOVE, WM_MOUSEWHEEL,
      WM_LBUTTONDOWN, WM_MBUTTONDOWN, WM_RBUTTONDOWN, WM_LBUTTONUP,
      WM_MBUTTONUP, WM_RBUTTONUP] <;>
      split_ifs <;> simp_all
  by_cases h5 : msg = 256 ∨ msg = 260
  · rcases h5 with h5p | h5p <;>
      simp [h5p, win_emit, window_proc, add_event_to_que, closeEvent,
      List.countP_cons, List.countP_nil,
      WM_CREATE, WM_ERASEBKGND, WM_CLOSE, WM_DESTROY, WM_KEYDOWN,
      WM_SYSKEYDOWN, WM_KEYUP, WM_SYSKEYUP, WM_MOUSEMOVE, WM_MOUSEWHEEL,
      WM_LBUTTONDOWN, WM_MBUTTONDOWN, WM_RBUTTONDOWN, WM_LBUTTONUP,
      WM_MBUTTONUP, WM_RBUTTONUP] <;>
      split_ifs <;> simp_all
  by_cases h6 : msg = 257 ∨ msg = 261
  · rcases h6 with h6p | h6p <;>
      simp [h6p, win_emit, window_proc, add_event_to_que, closeEvent,
      List.countP_cons, List.countP_nil,
      WM_CREATE, WM_ERASEBKGND, WM_CLOSE, WM_DESTROY, WM_KEYDOWN,
      WM_SYSKEYDOWN, WM_KEYUP, WM_SYSKEYUP, WM_MOUSEMOVE, WM_MOUSEWHEEL,
      WM_LBUTTONDOWN, WM_MBUTTONDOWN, WM_RBUTTONDOWN, WM_LBUTTONUP,
      WM_MBUTTONUP, WM_RBUTTONUP] <;>
      split_ifs <;> simp_all
  by_cases h7 : msg = 512
  · simp [h7, win_emit, window_proc, add_event_to_que, closeEvent,
      List.countP_cons, List.countP_nil,
      WM_CREATE, WM_ERASEBKGND, WM_CLOSE, WM_DESTROY, WM_KEYDOWN,
      WM_SYSKEYDOWN, WM_KEYUP, WM_SYSKEYUP, WM_MOUSEMOVE, WM_MOUSEWHEEL,
      WM_LBUTTONDOWN, WM_MBUTTONDOWN, WM_RBUTTONDOWN, WM_LBUTTONUP,
      WM_MBUTTONUP, WM_RBUTTONUP] <;>
      split_ifs <;> simp_all
  by_cases h8 : msg = 522
  · simp [h8, win_emit, window_proc, add_event_to_que, closeEvent,
      List.countP_cons, List.countP_nil,
      WM_CREATE, WM_ERASEBKGND, WM_CLOSE, WM_DESTROY, WM_KEYDOWN,
      WM_SYSKEYDOWN, WM_KEYUP, WM_SYSKEYUP, WM_MOUSEMOVE, WM_MOUSEWHEEL,
      WM_LBUTTONDOWN, WM_MBUTTONDOWN, WM_RBUTTONDOWN, WM_LBUTTONUP,
      WM_MBUTTONUP, WM_RBUTTONUP] <;>
      split_ifs <;> simp_all
  by_cases h9 : msg = 513
  · simp [h9, win_emit, window_proc, add_event_to_que, closeEvent,
      List.countP_cons, List.countP_nil,
      WM_CREATE, WM_ERASEBKGND, WM_CLOSE, WM_DESTROY, WM_KEYDOWN,
      WM_SYSKEYDOWN, WM_KEYUP, WM_SYSKEYUP, WM_MOUSEMOVE, WM_MOUSEWHEEL,
      WM_LBUTTONDOWN, WM_MBUTTONDOWN, WM_RBUTTONDOWN, WM_LBUTTONUP,
      WM_MBUTTONUP, WM_RBUTTONUP] <;>
      split_ifs <;> simp_all
  by_cases h10 : msg = 519
  · simp [h10, win_emit, window_proc, add_event_to_que, closeEvent,
      List.countP_cons, List.countP_nil,
      WM_CREATE, WM_ERASEBKGND, WM_CLOSE, WM_DESTROY, WM_KEYDOWN,
      WM_SYSKEYDOWN, WM_KEYUP, WM_SYSKEYUP, WM_MOUSEMOVE, WM_MOUSEWHEEL,
      WM_LBUTTONDOWN, WM_MBUTTONDOWN, WM_RBUTTONDOWN, WM_LBUTTONUP,
      WM_MBUTTONUP, WM_RBUTTONUP] <;>
      split_ifs <;> simp_all
  by_cases h11 : msg = 516
  · simp [h11, win_emit, window_proc, add_event_to_que, closeEvent,
      List.countP_cons, List.countP_nil,
      WM_CREATE, WM_ERASEBKGND, WM_CLOSE, WM_DESTROY, WM_KEYDOWN,
      WM_SYSKEYDOWN, WM_KEYUP, WM_SYSKEYUP, WM_MOUSEMOVE, WM_MOUSEWHEEL,
      WM_LBUTTONDOWN, WM_MBUTTONDOWN, WM_RBUTTONDOWN, WM_LBUTTONUP,
      WM_MBUTTONUP, WM_RBUTTONUP] <;>
      split_ifs <;> simp_all
  by_cases h12 : msg = 514
  · simp [h12, win_emit, window_proc, add_event_to_que, closeEvent,
      List.countP_cons, List.countP_nil,
      WM_CREATE, WM_ERASEBKGND, WM_CLOSE, WM_DESTROY, WM_KEYDOWN,
      WM_SYSKEYDOWN, WM_KEYUP, WM_SYSKEYUP, WM_MOUSEMOVE, WM_MOUSEWHEEL,
      WM_LBUTTONDOWN, WM_MBUTTONDOWN, WM_RBUTTONDOWN, WM_LBUTTONUP,
      WM_MBUTTONUP, WM_RBUTTONUP] <;>
      split_ifs <;> simp_all
  by_cases h13 : msg = 520
  · simp [h13, win_emit, window_proc, add_event_to_que, closeEvent,
      List.countP_cons, List.countP_nil,
      WM_CREATE, WM_ERASEBKGND, WM_CLOSE, WM_DESTROY, WM_KEYDOWN,
      WM_SYSKEYDOWN, WM_KEYUP, WM_SYSKEYUP, WM_MOUSEMOVE, WM_MOUSEWHEEL,
      WM_LBUTTONDOWN, WM_MBUTTONDOWN, WM_RBUTTONDOWN, WM_LBUTTONUP,
      WM_MBUTTONUP, WM_RBUTTONUP] <;>
      split_ifs <;> simp_all
  by_cases h14 : msg = 517
  · simp [h14, win_emit, window_proc, add_event_to_que, closeEvent,
      List.countP_cons, List.countP_nil,
      WM_CREATE, WM_ERASEBKGND, WM_CLOSE, WM_DESTROY, WM_KEYDOWN,
      WM_SYSKEYDOWN, WM_KEYUP, WM_SYSKEYUP, WM_MOUSEMOVE, WM_MOUSEWHEEL,
      WM_LBUTTONDOWN, WM_MBUTTONDOWN, WM_RBUTTONDOWN, WM_LBUTTONUP,
      WM_MBUTTONUP, WM_RBUTTONUP] <;>
      split_ifs <;> simp_all
  simp [h1, h2, h3, h4, h5, h6, h7, h8, h9, h10, h11, h12, h13, h14, win_emit, window_proc, add_event_to_que, closeEvent,
      List.countP_cons, List.countP_nil,
      WM_CREATE, WM_ERASEBKGND, WM_CLOSE, WM_DESTROY, WM_KEYDOWN,
      WM_SYSKEYDOWN, WM_KEYUP, WM_SYSKEYUP, WM_MOUSEMOVE, WM_MOUSEWHEEL,
      WM_LBUTTONDOWN, WM_MBUTTONDOWN, WM_RBUTTONDOWN, WM_LBUTTONUP,
      WM_MBUTTONUP, WM_RBUTTONUP] <;>
      split_ifs <;> simp_all


/-- win_emit_close_shape: every WinClose event a message emits is
the close event with default payload. -/
theorem win_emit_close_shape (msg w l : Nat) :
    ∀ e ∈ win_emit msg w l, e.e_type = EventType.WinClose → e = closeEvent := by
  by_cases h1 : msg = 1
  · simp [h1, win_emit, window_proc, add_event_to_que, closeEvent,
      List.countP_cons, List.countP_nil,
      WM_CREATE, WM_ERASEBKGND, WM_CLOSE, WM_DESTROY, WM_KEYDOWN,
      WM_SYSKEYDOWN, WM_KEYUP, WM_SYSKEYUP, WM_MOUSEMOVE, WM_MOUSEWHEEL,
      WM_LBUTTONDOWN, WM_MBUTTONDOWN, WM_RBUTTONDOWN, WM_LBUTTONUP,
      WM_MBUTTONUP, WM_RBUTTONUP] <;>
      split_ifs <;> simp_all
  by_cases h2 : msg = 20
  · simp [h2, win_emit, window_proc, add_event_to_que, closeEvent,
      List.countP_cons, List.countP_nil,
      WM_CREATE, WM_ERASEBKGND, WM_CLOSE, WM_DESTROY, WM_KEYDOWN,
      WM_SYSKEYDOWN, WM_KEYUP, WM_SYSKEYUP, WM_MOUSEMOVE, WM_MOUSEWHEEL,
      WM_LBUTTONDOWN, WM_MBUTTONDOWN, WM_RBUTTONDOWN, WM_LBUTTONUP,
      WM_MBUTTONUP, WM_RBUTTONUP] <;>
      split_ifs <;> simp_all
  by_cases h3 : msg = 16
  · simp [h3, win_emit, window_proc, add_event_to_que, closeEvent,
      List.countP_cons, List.countP_nil,
      WM_CREATE, WM_ERASEBKGND, WM_CLOSE, WM_DESTROY, WM_KEYDOWN,
      WM_SYSKEYDOWN, WM_KEYUP, WM_SYSKEYUP, WM_MOUSEMOVE, WM_MOUSEWHEEL,
      WM_LBUTTONDOWN, WM_MBUTTONDOWN, WM_RBUTTONDOWN, WM_LBUTTONUP,
      WM_MBUTTONUP, WM_RBUTTONUP] <;>
      split_ifs <;> simp_all
  by_cases h4 : msg = 2
  · simp [h4, win_emit, window_proc, add_event_to_que, closeEvent,
      List.countP_cons, List.countP_nil,
      WM_CREATE, WM_ERASEBKGND, WM_CLOSE, WM_DESTROY, WM_KEYDOWN,
      WM_SYSKEYDOWN, WM_KEYUP, WM_SYSKEYUP, WM_MOUSEMOVE, WM_MOUSEWHEEL,
      WM_LBUTTONDOWN, WM_MBUTTONDOWN, WM_RBUTTONDOWN, WM_LBUTTONUP,
      WM_MBUTTONUP, WM_RBUTTONUP] <;>
      split_ifs <;> simp_all
  by_cases h5 : msg = 256 ∨ msg = 260
  · rcases h5 with h5p | h5p <;>
      simp [h5p, win_emit, window_proc, add_event_to_que, closeEvent,
      List.countP_cons, List.countP_nil,
      WM_CREATE, WM_ERASEBKGND, WM_CLOSE, WM_DESTROY, WM_KEYDOWN,
      WM_SYSKEYDOWN, WM_KEYUP, WM_SYSKEYUP, WM_MOUSEMOVE, WM_MOUSEWHEEL,
      WM_LBUTTONDOWN, WM_MBUTTONDOWN, WM_RBUTTONDOWN, WM_LBUTTONUP,
      WM_MBUTTONUP, WM_RBUTTONUP] <;>
      split_ifs <;> simp_all
  by_cases h6 : msg = 257 ∨ msg = 261
  · rcases h6 with h6p | h6p <;>
      simp [h6p, win_emit, window_proc, add_event_to_que, closeEvent,
      List.countP_cons, List.countP_nil,
      WM_CREATE, WM_ERASEBKGND, WM_CLOSE, WM_DESTROY, WM_KEYDOWN,
      WM_SYSKEYDOWN, WM_KEYUP, WM_SYSKEYUP, WM_MOUSEMOVE, WM_MOUSEWHEEL,
      WM_LBUTTONDOWN, WM_MBUTTONDOWN, WM_RBUTTONDOWN, WM_LBUTTONUP,
      WM_MBUTTONUP, WM_RBUTTONUP] <;>
      split_ifs <;> simp_all
  by_cases h7 : msg = 512
  · simp [h7, win_emit, window_proc, add_event_to_que, closeEvent,
      List.countP_cons, List.countP_nil,
      WM_CREATE, WM_ERASEBKGND, WM_CLOSE, WM_DESTROY, WM_KEYDOWN,
      WM_SYSKEYDOWN, WM_KEYUP, WM_SYSKEYUP, WM_MOUSEMOVE, WM_MOUSEWHEEL,
      WM_LBUTTONDOWN, WM_MBUTTONDOWN, WM_RBUTTONDOWN, WM_LBUTTONUP,
      WM_MBUTTONUP, WM_RBUTTONUP] <;>
      split_ifs <;> simp_all
  by_cases h8 : msg = 522
  · simp [h8, win_emit, window_proc, add_event_to_que, closeEvent,
      List.countP_cons, List.countP_nil,
      WM_CREATE, WM_ERASEBKGND, WM_CLOSE, WM_DESTROY, WM_KEYDOWN,
      WM_SYSKEYDOWN, WM_KEYUP, WM_SYSKEYUP, WM_MOUSEMOVE, WM_MOUSEWHEEL,
      WM_LBUTTONDOWN, WM_MBUTTONDOWN, WM_RBUTTONDOWN, WM_LBUTTONUP,
      WM_MBUTTONUP, WM_RBUTTONUP] <;>
      split_ifs <;> simp_all
  by_cases h9 : msg = 513
  · simp [h9, win_emit, window_proc, add_event_to_que, closeEvent,
      List.countP_cons, List.countP_nil,
      WM_CREATE, WM_ERASEBKGND, WM_CLOSE, WM_DESTROY, WM_KEYDOWN,
      WM_SYSKEYDOWN, WM_KEYUP, WM_SYSKEYUP, WM_MOUSEMOVE, WM_MOUSEWHEEL,
      WM_LBUTTONDOWN, WM_MBUTTONDOWN, WM_RBUTTONDOWN, WM_LBUTTONUP,
      WM_MBUTTONUP, WM_RBUTTONUP] <;>
      split_ifs <;> simp_all
  by_cases h10 : msg = 519
  · simp [h10, win_emit, window_proc, add_event_to_que, closeEvent,
      List.countP_cons, List.countP_nil,
      WM_CREATE, WM_ERASEBKGND, WM_CLOSE, WM_DESTROY, WM_KEYDOWN,
      WM_SYSKEYDOWN, WM_KEYUP, WM_SYSKEYUP, WM_MOUSEMOVE, WM_MOUSEWHEEL,
      WM_LBUTTONDOWN, WM_MBUTTONDOWN, WM_RBUTTONDOWN, WM_LBUTTONUP,
      WM_MBUTTONUP, WM_RBUTTONUP] <;>
      split_ifs <;> simp_all
  by_cases h11 : msg = 516
  · simp [h11, win_emit, window_proc, add_event_to_que, closeEvent,
      List.countP_cons, List.countP_nil,
      WM_CREATE, WM_ERASEBKGND, WM_CLOSE, WM_DESTROY, WM_KEYDOWN,
      WM_SYSKEYDOWN, WM_KEYUP, WM_SYSKEYUP, WM_MOUSEMOVE, WM_MOUSEWHEEL,
      WM_LBUTTONDOWN, WM_MBUTTONDOWN, WM_RBUTTONDOWN, WM_LBUTTONUP,
      WM_MBUTTONUP, WM_RBUTTONUP] <;>
      split_ifs <;> simp_all
  by_cases h12 : msg = 514
  · simp [h12, win_emit, window_proc, add_event_to_que, closeEvent,
      List.countP_cons, List.countP_nil,
      WM_CREATE, WM_ERASEBKGND, WM_CLOSE, WM_DESTROY, WM_KEYDOWN,
      WM_SYSKEYDOWN, WM_KEYUP, WM_SYSKEYUP, WM_MOUSEMOVE, WM_MOUSEWHEEL,
      WM_LBUTTONDOWN, WM_MBUTTONDOWN, WM_RBUTTONDOWN, WM_LBUTTONUP,
      WM_MBUTTONUP, WM_RBUTTONUP] <;>
      split_ifs <;> simp_all
  by_cases h13 : msg = 520
  · simp [h13, win_emit, window_proc, add_event_to_que, closeEvent,
      List.countP_cons, List.countP_nil,
      WM_CREATE, WM_ERASEBKGND, WM_CLOSE, WM_DESTROY, WM_KEYDOWN,
      WM_SYSKEYDOWN, WM_KEYUP, WM_SYSKEYUP, WM_MOUSEMOVE, WM_MOUSEWHEEL,
      WM_LBUTTONDOWN, WM_MBUTTONDOWN, WM_RBUTTONDOWN, WM_LBUTTONUP,
      WM_MBUTTONUP, WM_RBUTTONUP] <;>
      split_ifs <;> simp_all
  by_cases h14 : msg = 517
  · simp [h14, win_emit, window_proc, add_event_to_que, closeEvent,
      List.countP_cons, List.countP_nil,
      WM_CREATE, WM_ERASEBKGND, WM_CLOSE, WM_DESTROY, WM_KEYDOWN,
      WM_SYSKEYDOWN, WM_KEYUP, WM_SYSKEYUP, WM_MOUSEMOVE, WM_MOUSEWHEEL,
      WM_LBUTTONDOWN, WM_MBUTTONDOWN, WM_RBUTTONDOWN, WM_LBUTTONUP,
      WM_MBUTTONUP, WM_RBUTTONUP] <;>
      split_ifs <;> simp_all
  simp [h1, h2, h3, h4, h5, h6, h7, h8, h9, h10, h11, h12, h13, h14, win_emit, window_proc, add_event_to_que, closeEvent,
      List.countP_cons, List.countP_nil,
      WM_CREATE, WM_ERASEBKGND, WM_CLOSE, WM_DESTROY, WM_KEYDOWN,
      WM_SYSKEYDOWN, WM_KEYUP, WM_SYSKEYUP, WM_MOUSEMOVE, WM_MOUSEWHEEL,
      WM_LBUTTONDOWN, WM_MBUTTONDOWN, WM_RBUTTONDOWN, WM_LBUTTONUP,
      WM_MBUTTONUP, WM_RBUTTONUP] <;>
      split_ifs <;> simp_all

/-- countP_bind_sum: counting over a bind is the sum of the counts
of the pieces. -/
theorem countP_bind_sum {α β : Type} (l : List α) (f : α → List β) (p : β → Bool) :
    (l.flatMap f).countP p = (l.map (fun a => (f a).countP p)).sum := by
  induction l with
  | nil => simp
  | cons a t ih => simp [List.flatMap_cons, List.countP_append, ih]

/-- sum_map_ite_count: summing an if-then-else indicator over a list
is counting the elements satisfying the condition. -/
theorem sum_map_ite_count {α : Type} (l : List α) (P : α → Prop) [DecidablePred P] :
    (l.map (fun a => if P a then 1 else 0)).sum = l.countP (fun a => decide (P a)) := by
  induction l with
  | nil => rfl
  | cons a t ih => by_cases h : P a <;> simp [h, ih, List.countP_cons] <;> omega

/-- win_update_eq: pumping a list of pending messages appends
exactly the concatenation of the per-message emitted events, in
arrival order. -/
theorem win_update_eq (msgs : List WinMsg) (q : List Event) :
    win_update msgs q = q ++ msgs.flatMap (fun m => win_emit m.msg m.wparam m.lparam) := by
  induction msgs generalizing q with
  | nil => simp [win_update]
  | cons m ms ih =>
      have hstep : ((window_proc m.msg m.wparam m.lparam (some q) 0).queue).getD q
          = q ++ win_emit m.msg m.wparam m.lparam := by
        rw [win_emit_spec]; rfl
      have hfold : win_update (m :: ms) q
          = win_update ms (q ++ win_emit m.msg m.wparam m.lparam) := by
        simp only [win_update, List.foldl_cons, hstep]
      rw [hfold, ih, List.flatMap_cons, List.append_assoc]

/-- XCB_KEY_PRESS native event code. -/
def XCB_KEY_PRESS : Nat := 2
/-- XCB_KEY_RELEASE native event code. -/
def XCB_KEY_RELEASE : Nat := 3
/-- XCB_BUTTON_PRESS native event code. -/
def XCB_BUTTON_PRESS : Nat := 4
/-- XCB_BUTTON_RELEASE native event code. -/
def XCB_BUTTON_RELEASE : Nat := 5
/-- XCB_MOTION_NOTIFY native event code. -/
def XCB_MOTION_NOTIFY : Nat := 6
/-- XCB_CLIENT_MESSAGE native event code. -/
def XCB_CLIENT_MESSAGE : Nat := 33
/-- ShiftMask is the X shift-state modifier bit (bit 0). -/
def ShiftMask : Nat := 1

/-- XcbGenericEvent models one generic native event of the
connection/poll backend: the response type byte plus the payload
fields the poll loop reads after casting (detail for key and button
events, root-relative coordinates for motion events, the first
32-bit data word for client messages). -/
structure XcbGenericEvent where
  response_type : Nat
  detail : Nat
  root_x : Int
  root_y : Int
  data32_0 : Nat
deriving DecidableEq, Repr

/-- linux_process embeds one iteration of the poll loop of
`PlatformWindow::update` on the linux backend (src/platform.rs
lines 695-816): the low 7 bits of the response type select the
translation arm, in source order. `keymap` stands for the native
`XKeycodeToKeysym` lookup of the open display; `wmDeleteWin` is the
interned delete-window atom. The result is the queue after the
iteration and the diagnostics emitted. -/
def linux_process (keymap : Nat → Nat → Nat) (wmDeleteWin : Nat)
    (ev : XcbGenericEvent) (q : List Event) : List Event × List LogLevel :=
  let event_enum := ev.response_type % 128
  if event_enum = XCB_KEY_PRESS then
    let key := keymap (ev.detail % 256) (ev.detail % 256 % (ShiftMask + 1))
    (q ++ [⟨EventType.KeyDown, EventData.ofUnsigned key, EventData.default⟩], [])
  else if event_enum = XCB_KEY_RELEASE then
    let key := keymap (ev.detail % 256) (ev.detail % 256 % (ShiftMask + 1))
    (q ++ [⟨EventType.KeyUp, EventData.ofUnsigned key, EventData.default⟩], [])
  else if event_enum = XCB_MOTION_NOTIFY then
    (q ++ [⟨EventType.MouseMove, EventData.ofSigned ev.root_x,
      EventData.ofSigned ev.root_y⟩], [])
  else if event_enum = XCB_BUTTON_PRESS then
    if ev.detail = 1 then
      (q ++ [⟨EventType.MouseLeftBtnDown, EventData.default, EventData.default⟩], [])
    else if ev.detail = 2 then
      (q ++ [⟨EventType.MouseMidBtnDown, EventData.default, EventData.default⟩], [])
    else if ev.detail = 3 then
      (q ++ [⟨EventType.MouseRightBtnDown, EventData.default, EventData.default⟩], [])
    else (q, [])
  else if event_enum = XCB_BUTTON_RELEASE then
    if ev.detail = 1 then
      (q ++ [⟨EventType.MouseLeftBtnUp, EventData.default, EventData.default⟩], [])
    else if ev.detail = 2 then
      (q ++ [⟨EventType.MouseMidBtnUp, EventData.default, EventData.default⟩], [])
    else if ev.detail = 3 then
      (q ++ [⟨EventType.MouseRightBtnUp, EventData.default, EventData.default⟩], [])
    else (q, [])
  else if event_enum = XCB_CLIENT_MESSAGE then
    if ev.data32_0 = wmDeleteWin then
      (q ++ [closeEvent], [LogLevel.info])
    else (q, [LogLevel.info])
  else (q, [])

/-- linux_emit is the list of events one native event contributes,
read off from `linux_process` run on an empty queue. -/
def linux_emit (keymap : Nat → Nat → Nat) (wmDeleteWin : Nat)
    (ev : XcbGenericEvent) : List Event :=
  (linux_process keymap wmDeleteWin ev []).1

/-- linux_update embeds the poll loop of `PlatformWindow::update` on
the linux backend: pending native events are processed in order
until the non-blocking poll returns none. -/
def linux_update (keymap : Nat → Nat → Nat) (wmDeleteWin : Nat)
    (evs : List XcbGenericEvent) (evQue : List Event) : List Event :=
  evs.foldl (fun q ev => (linux_process keymap wmDeleteWin ev q).1) evQue

/-- linux_process_fst: one poll iteration appends exactly the
emitted events of that native event to the queue. -/
theorem linux_process_fst (keymap : Nat → Nat → Nat) (wmDeleteWin : Nat)
    (ev : XcbGenericEvent) (q : List Event) :
    (linux_process keymap wmDeleteWin ev q).1 =
      q ++ linux_emit keymap wmDeleteWin ev := by
  by_cases g1 : ev.response_type % 128 = 2
  · simp [g1, linux_emit, linux_process, closeEvent, List.countP_cons, List.countP_nil,
      XCB_KEY_PRESS, XCB_KEY_RELEASE, XCB_BUTTON_PRESS, XCB_BUTTON_RELEASE,
      XCB_MOTION_NOTIFY, XCB_CLIENT_MESSAGE, ShiftMask] <;>
      split_ifs <;> simp
  by_cases g2 : ev.response_type % 128 = 3
  · simp [g2, linux_emit, linux_process, closeEvent, List.countP_cons, List.countP_nil,
      XCB_KEY_PRESS, XCB_KEY_RELEASE, XCB_BUTTON_PRESS, XCB_BUTTON_RELEASE,
      XCB_MOTION_NOTIFY, XCB_CLIENT_MESSAGE, ShiftMask] <;>
      split_ifs <;> simp
  by_cases g3 : ev.response_type % 128 = 6
  · simp [g3, linux_emit, linux_process, closeEvent, List.countP_cons, List.countP_nil,
      XCB_KEY_PRESS, XCB_KEY_RELEASE, XCB_BUTTON_PRESS, XCB_BUTTON_RELEASE,
      XCB_MOTION_NOTIFY, XCB_CLIENT_MESSAGE, ShiftMask] <;>
      split_ifs <;> simp
  by_cases g4 : ev.response_type % 128 = 4
  · simp [g4, linux_emit, linux_process, closeEvent, List.countP_cons, List.countP_nil,
      XCB_KEY_PRESS, XCB_KEY_RELEASE, XCB_BUTTON_PRESS, XCB_BUTTON_RELEASE,
      XCB_MOTION_NOTIFY, XCB_CLIENT_MESSAGE, ShiftMask] <;>
      split_ifs <;> simp
  by_cases g5 : ev.response_type % 128 = 5
  · simp [g5, linux_emit, linux_process, closeEvent, List.countP_cons, List.countP_nil,
      XCB_KEY_PRESS, XCB_KEY_RELEASE, XCB_BUTTON_PRESS, XCB_BUTTON_RELEASE,
      XCB_MOTION_NOTIFY, XCB_CLIENT_MESSAGE, ShiftMask] <;>
      split_ifs <;> simp
  by_cases g6 : ev.response_type % 128 = 33
  · simp [g6, linux_emit, linux_process, closeEvent, List.countP_cons, List.countP_nil,
      XCB_KEY_PRESS, XCB_KEY_RELEASE, XCB_BUTTON_PRESS, XCB_BUTTON_RELEASE,
      XCB_MOTION_NOTIFY, XCB_CLIENT_MESSAGE, ShiftMask] <;>
      split_ifs <;> simp
  simp [g1, g2, g3, g4, g5, g6, linux_emit, linux_process, closeEvent, List.countP_cons, List.countP_nil,
      XCB_KEY_PRESS, XCB_KEY_RELEASE, XCB_BUTTON_PRESS, XCB_BUTTON_RELEASE,
      XCB_MOTION_NOTIFY, XCB_CLIENT_MESSAGE, ShiftMask] <;>
      split_ifs <;> simp


/-- linux_emit_close_count: one native event contributes exactly one
WinClose event when it is a client message whose first data word is
the delete-window atom, and none otherwise. -/
theorem linux_emit_close_count (keymap : Nat → Nat → Nat) (wmDeleteWin : Nat)
    (ev : XcbGenericEvent) :
    (linux_emit keymap wmDeleteWin ev).countP
        (fun e => decide (e.e_type = EventType.WinClose)) =
      if ev.response_type % 128 = XCB_CLIENT_MESSAGE ∧ ev.data32_0 = wmDeleteWin
      then 1 else 0 := by
  by_cases g1 : ev.response_type % 128 = 2
  · simp [g1, linux_emit, linux_process, closeEvent, List.countP_cons, List.countP_nil,
      XCB_KEY_PRESS, XCB_KEY_RELEASE, XCB_BUTTON_PRESS, XCB_BUTTON_RELEASE,
      XCB_MOTION_NOTIFY, XCB_CLIENT_MESSAGE, ShiftMask] <;>
      split_ifs <;> simp_all
  by_cases g2 : ev.response_type % 128 = 3
  · simp [g2, linux_emit, linux_process, closeEvent, List.countP_cons, List.countP_nil,
      XCB_KEY_PRESS, XCB_KEY_RELEASE, XCB_BUTTON_PRESS, XCB_BUTTON_RELEASE,
      XCB_MOTION_NOTIFY, XCB_CLIENT_MESSAGE, ShiftMask] <;>
      split_ifs <;> simp_all
  by_cases g3 : ev.response_type % 128 = 6
  · simp [g3, linux_emit, linux_process, closeEvent, List.countP_cons, List.countP_nil,
      XCB_KEY_PRESS, XCB_KEY_RELEASE, XCB_BUTTON_PRESS, XCB_BUTTON_RELEASE,
      XCB_MOTION_NOTIFY, XCB_CLIENT_MESSAGE, ShiftMask] <;>
      split_ifs <;> simp_all
  by_cases g4 : ev.response_type % 128 = 4
  · simp [g4, linux_emit, linux_process, closeEvent, List.countP_cons, List.countP_nil,
      XCB_KEY_PRESS, XCB_KEY_RELEASE, XCB_BUTTON_PRESS, XCB_BUTTON_RELEASE,
      XCB_MOTION_NOTIFY, XCB_CLIENT_MESSAGE, ShiftMask] <;>
      split_ifs <;> simp_all
  by_cases g5 : ev.response_type % 128 = 5
  · simp [g5, linux_emit, linux_process, closeEvent, List.countP_cons, List.countP_nil,
      XCB_KEY_PRESS, XCB_KEY_RELEASE, XCB_BUTTON_PRESS, XCB_BUTTON_RELEASE,
      XCB_MOTION_NOTIFY, XCB_CLIENT_MESSAGE, ShiftMask] <;>
      split_ifs <;> simp_all
  by_cases g6 : ev.response_type % 128 = 33
  · simp [g6, linux_emit, linux_process, closeEvent, List.countP_cons, List.countP_nil,
      XCB_KEY_PRESS, XCB_KEY_RELEASE, XCB_BUTTON_PRESS, XCB_BUTTON_RELEASE,
      XCB_MOTION_NOTIFY, XCB_CLIENT_MESSAGE, ShiftMask] <;>
      split_ifs <;> simp_all
  simp [g1, g2, g3, g4, g5, g6, linux_emit, linux_process, closeEvent, List.countP_cons, List.countP_nil,
      XCB_KEY_PRESS, XCB_KEY_RELEASE, XCB_BUTTON_PRESS, XCB_BUTTON_RELEASE,
      XCB_MOTION_NOTIFY, XCB_CLIENT_MESSAGE, ShiftMask] <;>
      split_ifs <;> simp_all


/-- linux_emit_close_shape: every WinClose event the poll loop emits
is the close event with default payload. -/
theorem linux_emit_close_shape (keymap : Nat → Nat → Nat) (wmDeleteWin : Nat)
    (ev : XcbGenericEvent) :
    ∀ e ∈ linux_emit keymap wmDeleteWin ev,
      e.e_type = EventType.WinClose → e = closeEvent := by
  by_cases g1 : ev.response_type % 128 = 2
  · simp [g1, linux_emit, linux_process, closeEvent, List.countP_cons, List.countP_nil,
      XCB_KEY_PRESS, XCB_KEY_RELEASE, XCB_BUTTON_PRESS, XCB_BUTTON_RELEASE,
      XCB_MOTION_NOTIFY, XCB_CLIENT_MESSAGE, ShiftMask] <;>
      split_ifs <;> simp_all
  by_cases g2 : ev.response_type % 128 = 3
  · simp [g2, linux_emit, linux_process, closeEvent, List.countP_cons, List.countP_nil,
      XCB_KEY_PRESS, XCB_KEY_RELEASE, XCB_BUTTON_PRESS, XCB_BUTTON_RELEASE,
      XCB_MOTION_NOTIFY, XCB_CLIENT_MESSAGE, ShiftMask] <;>
      split_ifs <;> simp_all
  by_cases g3 : ev.response_type % 128 = 6
  · simp [g3, linux_emit, linux_process, closeEvent, List.countP_cons, List.countP_nil,
      XCB_KEY_PRESS, XCB_KEY_RELEASE, XCB_BUTTON_PRESS, XCB_BUTTON_RELEASE,
      XCB_MOTION_NOTIFY, XCB_CLIENT_MESSAGE, ShiftMask] <;>
      split_ifs <;> simp_all
  by_cases g4 : ev.response_type % 128 = 4
  · simp [g4, linux_emit, linux_process, closeEvent, List.countP_cons, List.countP_nil,
      XCB_KEY_PRESS, XCB_KEY_RELEASE, XCB_BUTTON_PRESS, XCB_BUTTON_RELEASE,
      XCB_MOTION_NOTIFY, XCB_CLIENT_MESSAGE, ShiftMask] <;>
      split_ifs <;> simp_all
  by_cases g5 : ev.response_type % 128 = 5
  · simp [g5, linux_emit, linux_process, closeEvent, List.countP_cons, List.countP_nil,
      XCB_KEY_PRESS, XCB_KEY_RELEASE, XCB_BUTTON_PRESS, XCB_BUTTON_RELEASE,
      XCB_MOTION_NOTIFY, XCB_CLIENT_MESSAGE, ShiftMask] <;>
      split_ifs <;> simp_all
  by_cases g6 : ev.response_type % 128 = 33
  · simp [g6, linux_emit, linux_process, closeEvent, List.countP_cons, List.countP_nil,
      XCB_KEY_PRESS, XCB_KEY_RELEASE, XCB_BUTTON_PRESS, XCB_BUTTON_RELEASE,
      XCB_MOTION_NOTIFY, XCB_CLIENT_MESSAGE, ShiftMask] <;>
      split_ifs <;> simp_all
  simp [g1, g2, g3, g4, g5, g6, linux_emit, linux_process, closeEvent, List.countP_cons, List.countP_nil,
      XCB_KEY_PRESS, XCB_KEY_RELEASE, XCB_BUTTON_PRESS, XCB_BUTTON_RELEASE,
      XCB_MOTION_NOTIFY, XCB_CLIENT_MESSAGE, ShiftMask] <;>
      split_ifs <;> simp_all

/-- allowedLinuxKinds lists the event kinds the connection/poll
backend can ever enqueue. -/
def allowedLinuxKinds : List EventType :=
  [EventType.KeyDown, EventType.KeyUp, EventType.MouseMove,
   EventType.WinClose,
   EventType.MouseLeftBtnDown, EventType.MouseMidBtnDown,
   EventType.MouseRightBtnDown,
   EventType.MouseLeftBtnUp, EventType.MouseMidBtnUp,
   EventType.MouseRightBtnUp]


/-- linux_emit_kinds: every event one poll iteration emits has one
of the ten kinds the connection/poll backend can produce. -/
theorem linux_emit_kinds (keymap : Nat → Nat → Nat) (wmDeleteWin : Nat)
    (ev : XcbGenericEvent) :
    ∀ e ∈ linux_emit keymap wmDeleteWin ev,
      e.e_type ∈ allowedLinuxKinds := by
  by_cases g1 : ev.response_type % 128 = 2
  · simp [g1, linux_emit, linux_process, closeEvent, allowedLinuxKinds,
      XCB_KEY_PRESS, XCB_KEY_RELEASE, XCB_BUTTON_PRESS, XCB_BUTTON_RELEASE,
      XCB_MOTION_NOTIFY, XCB_CLIENT_MESSAGE, ShiftMask] <;>
      split_ifs <;> simp_all
  by_cases g2 : ev.response_type % 128 = 3
  · simp [g2, linux_emit, linux_process, closeEvent, allowedLinuxKinds,
      XCB_KEY_PRESS, XCB_KEY_RELEASE, XCB_BUTTON_PRESS, XCB_BUTTON_RELEASE,
      XCB_MOTION_NOTIFY, XCB_CLIENT_MESSAGE, ShiftMask] <;>
      split_ifs <;> simp_all
  by_cases g3 : ev.response_type % 128 = 6
  · simp [g3, linux_emit, linux_process, closeEvent, allowedLinuxKinds,
      XCB_KEY_PRESS, XCB_KEY_RELEASE, XCB_BUTTON_PRESS, XCB_BUTTON_RELEASE,
      XCB_MOTION_NOTIFY, XCB_CLIENT_MESSAGE, ShiftMask] <;>
      split_ifs <;> simp_all
  by_cases g4 : ev.response_type % 128 = 4
  · simp [g4, linux_emit, linux_process, closeEvent, allowedLinuxKinds,
      XCB_KEY_PRESS, XCB_KEY_RELEASE, XCB_BUTTON_PRESS, XCB_BUTTON_RELEASE,
      XCB_MOTION_NOTIFY, XCB_CLIENT_MESSAGE, ShiftMask] <;>
      split_ifs <;> simp_all
  by_cases g5 : ev.response_type % 128 = 5
  · simp [g5, linux_emit, linux_process, closeEvent, allowedLinuxKinds,
      XCB_KEY_PRESS, XCB_KEY_RELEASE, XCB_BUTTON_PRESS, XCB_BUTTON_RELEASE,
      XCB_MOTION_NOTIFY, XCB_CLIENT_MESSAGE, ShiftMask] <;>
      split_ifs <;> simp_all
  by_cases g6 : ev.response_type % 128 = 33
  · simp [g6, linux_emit, linux_process, closeEvent, allowedLinuxKinds,
      XCB_KEY_PRESS, XCB_KEY_RELEASE, XCB_BUTTON_PRESS, XCB_BUTTON_RELEASE,
      XCB_MOTION_NOTIFY, XCB_CLIENT_MESSAGE, ShiftMask] <;>
      split_ifs <;> simp_all
  simp [g1, g2, g3, g4, g5, g6, linux_emit, linux_process, closeEvent, allowedLinuxKinds,
      XCB_KEY_PRESS, XCB_KEY_RELEASE, XCB_BUTTON_PRESS, XCB_BUTTON_RELEASE,
      XCB_MOTION_NOTIFY, XCB_CLIENT_MESSAGE, ShiftMask] <;>
      split_ifs <;> simp_all


/-- linux_update_eq: polling a list of pending native events appends
exactly the concatenation of the per-event emitted events, in
arrival order. -/
theorem linux_update_eq (keymap : Nat → Nat → Nat) (wmDeleteWin : Nat)
    (evs : List XcbGenericEvent) (q : List Event) :
    linux_update keymap wmDeleteWin evs q =
      q ++ evs.flatMap (linux_emit keymap wmDeleteWin) := by
  induction evs generalizing q with
  | nil => simp [linux_update]
  | cons ev t ih =>
      have hfold : linux_update keymap wmDeleteWin (ev :: t) q
          = linux_update keymap wmDeleteWin t
              (q ++ linux_emit keymap wmDeleteWin ev) := by
        simp only [linux_update, List.foldl_cons, linux_process_fst]
      rw [hfold, ih, List.flatMap_cons, List.append_assoc]

/-- C3: a pump in which exactly one native close notification
arrives appends exactly one WinClose event, and every WinClose
event either backend ever appends carries the default zero payload;
on the connection/poll backend a client message whose first data
word differs from the delete-window atom appends nothing and emits
only an informational log. -/
theorem c3_close_notification_single_event :
    (∀ (msgs : List WinMsg) (q : List Event),
      msgs.countP (fun m => decide (m.msg = WM_CLOSE)) = 1 →
      ((win_update msgs q).drop q.length).countP
        (fun e => decide (e.e_type = EventType.WinClose)) = 1) ∧
    (∀ (msgs : List WinMsg) (q : List Event) (e : Event),
      e ∈ (win_update msgs q).drop q.length →
      e.e_type = EventType.WinClose → e = closeEvent) ∧
    (∀ (keymap : Nat → Nat → Nat) (wmDel : Nat) (evs : List XcbGenericEvent)
        (q : List Event),
      evs.countP (fun ev => decide (ev.response_type % 128 = XCB_CLIENT_MESSAGE ∧
        ev.data32_0 = wmDel)) = 1 →
      ((linux_update keymap wmDel evs q).drop q.length).countP
        (fun e => decide (e.e_type = EventType.WinClose)) = 1) ∧
    (∀ (keymap : Nat → Nat → Nat) (wmDel : Nat) (evs : List XcbGenericEvent)
        (q : List Event) (e : Event),
      e ∈ (linux_update keymap wmDel evs q).drop q.length →
      e.e_type = EventType.WinClose → e = closeEvent) ∧
    (∀ (keymap : Nat → Nat → Nat) (wmDel : Nat) (ev : XcbGenericEvent)
        (q : List Event),
      ev.response_type % 128 = XCB_CLIENT_MESSAGE → ev.data32_0 ≠ wmDel →
      linux_process keymap wmDel ev q = (q, [LogLevel.info])) := by
  refine ⟨?_, ?_, ?_, ?_, ?_⟩
  · intro msgs q h
    rw [win_update_eq, List.drop_left, countP_bind_sum]
    simp only [win_emit_close_count]
    rw [sum_map_ite_count msgs (fun m => m.msg = WM_CLOSE)]
    exact h
  · intro msgs q e he hty
    rw [win_update_eq, List.drop_left] at he
    rcases List.mem_flatMap.mp he with ⟨m, hm, hme⟩
    exact win_emit_close_shape m.msg m.wparam m.lparam e hme hty
  · intro keymap wmDel evs q h
    rw [linux_update_eq, List.drop_left, countP_bind_sum]
    simp only [linux_emit_close_count]
    rw [sum_map_ite_count evs
      (fun ev => ev.response_type % 128 = XCB_CLIENT_MESSAGE ∧
        ev.data32_0 = wmDel)]
    exact h
  · intro keymap wmDel evs q e he hty
    rw [linux_update_eq, List.drop_left] at he
    rcases List.mem_flatMap.mp he with ⟨ev, hev, hime⟩
    exact linux_emit_close_shape keymap wmDel ev e hime hty
  · intro keymap wmDel ev q h1 h2
    simp [linux_process, XCB_KEY_PRESS, XCB_KEY_RELEASE, XCB_MOTION_NOTIFY,
      XCB_BUTTON_PRESS, XCB_BUTTON_RELEASE, XCB_CLIENT_MESSAGE, h1, h2]

/-- C3 witness: the theorem applied at a pump with exactly one
WM_CLOSE message, a pump with exactly one matching client message
(atom 42), and a mismatching client message (word 7, atom 42). -/
theorem c3_close_notification_single_event_witness :
    ((win_update [⟨WM_CLOSE, 0, 0⟩] []).drop
        (List.length ([] : List Event))).countP
      (fun e => decide (e.e_type = EventType.WinClose)) = 1 ∧
    ((linux_update (fun _ _ => 0) 42 [⟨33, 0, 0, 0, 42⟩] []).drop
        (List.length ([] : List Event))).countP
      (fun e => decide (e.e_type = EventType.WinClose)) = 1 ∧
    linux_process (fun _ _ => 0) 42 ⟨33, 0, 0, 0, 7⟩ [] =
      (([] : List Event), [LogLevel.info]) :=
  ⟨c3_close_notification_single_event.1 [⟨WM_CLOSE, 0, 0⟩] [] (by decide),
   c3_close_notification_single_event.2.2.1 (fun _ _ => 0) 42
     [⟨33, 0, 0, 0, 42⟩] [] (by decide),
   c3_close_notification_single_event.2.2.2.2 (fun _ _ => 0) 42
     ⟨33, 0, 0, 0, 7⟩ [] (by decide) (by decide)⟩

/-- C10: everything the connection/poll backend appends during a
pump has one of the kinds KeyDown, KeyUp, MouseMove, WinClose or
the six mouse-button kinds (so never WinResize, WinShow or
MouseWheel), and a button notification whose index is not 1, 2 or 3
appends nothing. -/
theorem c10_linux_update_kind_restriction :
    (∀ (keymap : Nat → Nat → Nat) (wmDel : Nat) (evs : List XcbGenericEvent)
        (q : List Event) (e : Event),
      e ∈ (linux_update keymap wmDel evs q).drop q.length →
      e.e_type ∈ allowedLinuxKinds) ∧
    (∀ (keymap : Nat → Nat → Nat) (wmDel : Nat) (ev : XcbGenericEvent)
        (q : List Event),
      (ev.response_type % 128 = XCB_BUTTON_PRESS ∨
       ev.response_type % 128 = XCB_BUTTON_RELEASE) →
      ev.detail ≠ 1 → ev.detail ≠ 2 → ev.detail ≠ 3 →
      linux_process keymap wmDel ev q = (q, [])) := by
  constructor
  · intro keymap wmDel evs q e he
    rw [linux_update_eq, List.drop_left] at he
    rcases List.mem_flatMap.mp he with ⟨ev, hev, hime⟩
    exact linux_emit_kinds keymap wmDel ev e hime
  · intro keymap wmDel ev q hbp h1 h2 h3
    rcases hbp with hb | hb <;>
      simp [linux_process, XCB_KEY_PRESS, XCB_KEY_RELEASE, XCB_MOTION_NOTIFY,
        XCB_BUTTON_PRESS, XCB_BUTTON_RELEASE, XCB_CLIENT_MESSAGE,
        hb, h1, h2, h3]

/-- C10 witness: the theorem applied at a concrete key-press pump
(the enqueued KeyDown kind is in the allowed set) and at a concrete
button-press with index 8 (nothing is appended). -/
theorem c10_linux_update_kind_restriction_witness :
    (⟨EventType.KeyDown, ⟨9⟩, ⟨0⟩⟩ : Event).e_type ∈ allowedLinuxKinds ∧
    linux_process (fun _ _ => 9) 5 ⟨4, 8, 0, 0, 0⟩ [] =
      (([] : List Event), []) :=
  ⟨c10_linux_update_kind_restriction.1 (fun _ _ => 9) 5 [⟨2, 10, 0, 0, 0⟩] []
     ⟨EventType.KeyDown, ⟨9⟩, ⟨0⟩⟩ (by decide),
   c10_linux_update_kind_restriction.2 (fun _ _ => 9) 5 ⟨4, 8, 0, 0, 0⟩ []
     (by decide) (by decide) (by decide) (by decide)⟩

/-- Rect models the win32 RECT of left, top, right, bottom offsets. -/
structure Rect where
  left : Int
  top : Int
  right : Int
  bottom : Int
deriving DecidableEq, Repr

/-- WS_OVERLAPPED window style flag. -/
def WS_OVERLAPPED : Nat := 0x00000000
/-- WS_SYSMENU window style flag. -/
def WS_SYSMENU : Nat := 0x00080000
/-- WS_EX_APPWINDOW extended window style flag. -/
def WS_EX_APPWINDOW : Nat := 0x00040000
/-- WS_MAXIMIZEBOX window style flag. -/
def WS_MAXIMIZEBOX : Nat := 0x00010000
/-- WS_MINIMIZEBOX window style flag. -/
def WS_MINIMIZEBOX : Nat := 0x00020000

/-- WinNewAction records one observable native step of the geometry
part of windows `PlatformWindow::new`. -/
inductive WinNewAction where
  | allocZeroedRect
  | adjustWindowRectEx (rect : Rect) (style exStyle : Nat)
  | deallocRect
  | createWindowEx (exStyle style : Nat) (x y w h : Int)
  | showWindow
deriving DecidableEq, Repr

/-- win_new_trace embeds the geometry-and-creation sequence of
windows `PlatformWindow::new` (src/platform.rs lines 140-171): a
zero-initialized RECT buffer is allocated, `AdjustWindowRectEx` is
invoked on it with the chosen style and extended-style flags, the
buffer is released immediately, and `CreateWindowExA` is then
invoked. `adj` is the native semantics of `AdjustWindowRectEx`
(the rectangle it would write back); the code never reads that
result, so the geometry handed to `CreateWindowExA` is the raw
client x, y, width, height. -/
def win_new_trace (adj : Rect → Nat → Nat → Rect)
    (width height : Nat) (x y : Int) : List WinNewAction :=
  let window_style := WS_OVERLAPPED ||| WS_SYSMENU
  let window_ex_style := WS_EX_APPWINDOW ||| WS_MAXIMIZEBOX ||| WS_MINIMIZEBOX
  let border_rect : Rect := ⟨0, 0, 0, 0⟩
  [WinNewAction.allocZeroedRect,
   WinNewAction.adjustWindowRectEx border_rect window_style window_ex_style,
   WinNewAction.deallocRect,
   WinNewAction.createWindowEx window_ex_style window_style x y width height,
   WinNewAction.showWindow]

/-- adjustedClientSize is the geometry the specification requires to
be passed to window creation: the client size grown by the border
offsets that `AdjustWindowRectEx` reports for a zero-initialized
rectangle under the given style flags. Modelled from the spec
sentence on non-client border adjustment. -/
def adjustedClientSize (adj : Rect → Nat → Nat → Rect)
    (style exStyle : Nat) (width height : Nat) : Int × Int :=
  let r := adj ⟨0, 0, 0, 0⟩ style exStyle
  ((width : Int) + (r.right - r.left), (height : Int) + (r.bottom - r.top))

/-- exampleBorderAdj is a concrete `AdjustWindowRectEx` semantics
with the typical caption and frame border offsets of the default
desktop theme. -/
def exampleBorderAdj : Rect → Nat → Nat → Rect :=
  fun r _ _ => ⟨r.left - 8, r.top - 31, r.right + 8, r.bottom + 8⟩

/-- C6: the code allocates the zero-initialized rectangle buffer,
calls the adjust routine on it with the chosen style flags and
releases the buffer immediately, but for every adjust semantics the
geometry handed to window creation is the raw client geometry; with
the typical nonzero border the adjusted size (816, 639) for a
client size of (800, 600) differs from the (800, 600) actually
passed. -/
theorem c6_geometry_passed_unadjusted :
    (∀ (adj : Rect → Nat → Nat → Rect) (width height : Nat) (x y : Int),
      win_new_trace adj width height x y =
        [WinNewAction.allocZeroedRect,
         WinNewAction.adjustWindowRectEx ⟨0, 0, 0, 0⟩
           (WS_OVERLAPPED ||| WS_SYSMENU)
           (WS_EX_APPWINDOW ||| WS_MAXIMIZEBOX ||| WS_MINIMIZEBOX),
         WinNewAction.deallocRect,
         WinNewAction.createWindowEx
           (WS_EX_APPWINDOW ||| WS_MAXIMIZEBOX ||| WS_MINIMIZEBOX)
           (WS_OVERLAPPED ||| WS_SYSMENU) x y width height,
         WinNewAction.showWindow]) ∧
    adjustedClientSize exampleBorderAdj (WS_OVERLAPPED ||| WS_SYSMENU)
      (WS_EX_APPWINDOW ||| WS_MAXIMIZEBOX ||| WS_MINIMIZEBOX) 800 600 =
      (816, 639) ∧
    decide (((816 : Int), (639 : Int)) = ((800 : Int), (600 : Int))) = false :=
  ⟨fun adj width height x y => rfl, by decide, by decide⟩

/-- DestroyAction records one observable action of a destroy call on
either backend. -/
inductive DestroyAction where
  | destroyWindowCall
  | warnLog
  | autoRepeatOnCall
  | xcbDestroyWindowCall
deriving DecidableEq, Repr

/-- win_destroy embeds windows `PlatformWindow::destroy`
(src/platform.rs lines 200-208): the native `DestroyWindow` is
invoked only on a non-null handle; a null handle produces only a
warning diagnostic. -/
def win_destroy (hwndIsNull : Bool) : List DestroyAction :=
  if ¬hwndIsNull then [DestroyAction.destroyWindowCall]
  else [DestroyAction.warnLog]

/-- linux_destroy embeds linux `PlatformWindow::destroy`
(src/platform.rs lines 821-827): `XAutoRepeatOn` and
`xcb_destroy_window` are invoked unconditionally on the stored
display and window handles, with no null-handle guard and no
diagnostic. -/
def linux_destroy (_displayIsNull : Bool) : List DestroyAction :=
  [DestroyAction.autoRepeatOnCall, DestroyAction.xcbDestroyWindowCall]

/-- C7 counterexample: on the connection/poll backend a destroy with
a null display handle is not a warning-only no-op: no warning is
logged and the native release calls are still performed. -/
theorem c7_counterexample_linux_destroy_not_guarded :
    decide (DestroyAction.warnLog ∈ linux_destroy true) = false ∧
    linux_destroy true =
      [DestroyAction.autoRepeatOnCall, DestroyAction.xcbDestroyWindowCall] := by
  decide

/-- C7 amended: on the message-loop backend a destroy with a null
window handle performs no native call and emits exactly a warning
diagnostic (nothing is reported to the caller as an error), while
the connection/poll backend performs its native release calls
unconditionally, whatever the handle state. -/
theorem c7_null_destroy_warn_noop_windows_only :
    win_destroy true = [DestroyAction.warnLog] ∧
    win_destroy false = [DestroyAction.destroyWindowCall] ∧
    ∀ b : Bool, linux_destroy b =
      [DestroyAction.autoRepeatOnCall, DestroyAction.xcbDestroyWindowCall] :=
  ⟨rfl, rfl, fun b => rfl⟩

/-- LinuxNewAction records one observable native call of linux
`PlatformWindow::new`. -/
inductive LinuxNewAction where
  | openDisplay
  | autoRepeatOff
  | getXCBConnection
  | createWindow
  | internAtoms
  | mapWindow
  | flush
  | fatalLog
  | errorLog
deriving DecidableEq, Repr

/-- linux_new_trace embeds the call sequence of linux
`PlatformWindow::new` (src/platform.rs lines 574-689) as a function
of the native environment: whether the display opens, whether the
derived xcb connection reports an error, and whether the final
flush succeeds. The first component tells whether a PlatformWindow
is produced. `XAutoRepeatOff` runs right after the display opens,
before the connection-error check. -/
def linux_new_trace (displayOk connOk flushOk : Bool) :
    Bool × List LinuxNewAction :=
  if ¬displayOk then
    (false, [LinuxNewAction.openDisplay, LinuxNewAction.fatalLog])
  else if ¬connOk then
    (false, [LinuxNewAction.openDisplay, LinuxNewAction.autoRepeatOff,
      LinuxNewAction.getXCBConnection, LinuxNewAction.fatalLog])
  else
    (true, [LinuxNewAction.openDisplay, LinuxNewAction.autoRepeatOff,
      LinuxNewAction.getXCBConnection, LinuxNewAction.createWindow,
      LinuxNewAction.internAtoms, LinuxNewAction.mapWindow,
      LinuxNewAction.flush] ++
      (if flushOk then [] else [LinuxNewAction.errorLog]))

/-- C9: when the display opens but the derived connection reports an
error, creation fails after auto-repeat suppression was already
turned on (`XAutoRepeatOff` ran) and the failure path performs no
restoring call: the restore (`XAutoRepeatOn`) lives only in destroy,
which cannot run because no PlatformWindow was produced. The
display is left with auto-repeat disabled. -/
theorem c9_autorepeat_leak_on_connection_failure :
    linux_new_trace true false true =
      (false, [LinuxNewAction.openDisplay, LinuxNewAction.autoRepeatOff,
        LinuxNewAction.getXCBConnection, LinuxNewAction.fatalLog]) ∧
    linux_destroy false =
      [DestroyAction.autoRepeatOnCall, DestroyAction.xcbDestroyWindowCall] := by
  refine ⟨by decide, by decide⟩
